import Mathlib

/-!
Verification of the pilidium-modpack dashboard scripts
(`generate_modlist.py` and `fetch_mod_data.py`) against their
natural-language specification.  Python strings are modelled as Lean
`String`s (the inputs of interest are ASCII, so `Char.toLower`-style
ASCII case mapping coincides with Python's), Python byte streams as
`List Nat` with explicit positions, Python dicts as insertion-ordered
association lists, and fallible Python code as `Option`/`Except`.
-/

/-- The six ASCII characters Python's `str.strip` removes (the inputs in
this development are ASCII, so wider Unicode whitespace is not modelled). -/
def pySpaceChar (c : Char) : Bool :=
  c = ' ' || c = '\t' || c = '\n' || c = '\r' || c = '\x0b' || c = '\x0c'

/-- Python `str.strip()` on a list of characters. -/
def pyStripChars (l : List Char) : List Char :=
  ((l.dropWhile (fun c => pySpaceChar c)).reverse.dropWhile (fun c => pySpaceChar c)).reverse

/-- Python `str.strip()`. -/
def pyStrip (s : String) : String := String.mk (pyStripChars s.data)

/-- Python `str.lower()` (ASCII). -/
def pyLower (s : String) : String := String.mk (s.data.map Char.toLower)

/-- Whether the second list starts with the first. -/
def chHasPre : List Char → List Char → Bool
  | [], _ => true
  | _ :: _, [] => false
  | p :: ps, c :: cs => p == c && chHasPre ps cs

/-- Whether `pat` occurs contiguously in the second list (Python `in`). -/
def chOccurs (pat : List Char) : List Char → Bool
  | [] => pat.isEmpty
  | c :: cs => chHasPre pat (c :: cs) || chOccurs pat cs

/-- Python `a in b` for strings. -/
def pyInStr (a b : String) : Bool := chOccurs a.data b.data

/-- Python `s.startswith(p)`. -/
def pyStartsWith (s p : String) : Bool := chHasPre p.data s.data

/-- Python `str.replace(pat, rep)`: replace every non-overlapping
occurrence, scanning left to right.  (The scripts never call `replace`
with an empty pattern; for an empty pattern this model is the identity.)
Structural recursion on a fuel bounded by the list length so that the
kernel can evaluate it; `replAllChars` always supplies enough fuel. -/
def replAllCharsF (pat rep : List Char) : Nat → List Char → List Char
  | _, [] => []
  | 0, l => l
  | fuel + 1, c :: cs =>
    if pat ≠ [] ∧ chHasPre pat (c :: cs) then
      rep ++ replAllCharsF pat rep fuel (cs.drop (pat.length - 1))
    else
      c :: replAllCharsF pat rep fuel cs

/-- Python `str.replace(pat, rep)` on character lists. -/
def replAllChars (pat rep : List Char) (l : List Char) : List Char :=
  replAllCharsF pat rep l.length l

/-- Python `s.replace(pat, rep)`. -/
def pyReplaceAll (s pat rep : String) : String :=
  String.mk (replAllChars pat.data rep.data s.data)

/-- Python `line.partition("=")` restricted to the pieces the scripts use:
the text before the first `=` and the text after it (whole string and
empty tail when there is no `=`). -/
def partAtEq : List Char → List Char × List Char
  | [] => ([], [])
  | c :: cs =>
    if c = '=' then ([], cs)
    else
      let r := partAtEq cs
      (c :: r.1, r.2)

/-- Split a character list at newlines (used to model Python
`splitlines` on the text files read by the scripts; their lines are
newline-terminated, and stray carriage returns are stripped as
whitespace by the callers). -/
def splitNlChars : List Char → List (List Char)
  | [] => [[]]
  | c :: cs =>
    if c = '\n' then [] :: splitNlChars cs
    else
      match splitNlChars cs with
      | [] => [[c]]
      | l :: ls => (c :: l) :: ls

/-- Split a string at newlines. -/
def pySplitLines (s : String) : List String := (splitNlChars s.data).map String.mk

/-- Lookup in an insertion-ordered association list (Python dict `.get`). -/
def lookupKV {α : Type} : List (String × α) → String → Option α
  | [], _ => none
  | (k', v) :: rest, k => if k' = k then some v else lookupKV rest k

/-- Insertion into an insertion-ordered association list (Python dict
assignment: replace in place, else append). -/
def insertKV {α : Type} : List (String × α) → String → α → List (String × α)
  | [], k, v => [(k, v)]
  | (k', v') :: rest, k, v =>
    if k' = k then (k, v) :: rest else (k', v') :: insertKV rest k v

theorem lookupKV_insertKV_self {α : Type} (s : List (String × α)) (k : String) (v : α) :
    lookupKV (insertKV s k v) k = some v := by
  induction s with
  | nil => simp [insertKV, lookupKV]
  | cons h t ih =>
    obtain ⟨k', v'⟩ := h
    by_cases hk : k' = k
    · simp [insertKV, hk, lookupKV]
    · simp [insertKV, hk, lookupKV, ih]

theorem lookupKV_insertKV_ne {α : Type} (s : List (String × α)) (k k' : String) (v : α)
    (h : k' ≠ k) : lookupKV (insertKV s k v) k' = lookupKV s k' := by
  have h2 : k ≠ k' := Ne.symm h
  induction s with
  | nil => simp [insertKV, lookupKV, h2]
  | cons hd t ih =>
    obtain ⟨k2, v2⟩ := hd
    by_cases hk : k2 = k
    · simp [insertKV, hk, lookupKV, h2]
    · by_cases hk2 : k2 = k'
      · simp [insertKV, hk, lookupKV, hk2, h]
      · simp [insertKV, hk, lookupKV, hk2, ih]

example : pyStrip "  difficulty " = "difficulty" := by decide

example : pyReplaceAll "a.jar.jarb" ".jar" "" = "ab" := by decide

example : pyInStr "1.6.4" "v1.6.4 f15" = true := by decide

/-! ## server.properties collector (`generate_modlist.py`) -/

/-- `SERVER_DEFAULTS` from `generate_modlist.py`: Minecraft 1.21
server.properties defaults, as an insertion-ordered association list. -/
def SERVER_DEFAULTS : List (String × String) := [
  ("accepts-transfers", "false"),
  ("allow-flight", "false"),
  ("broadcast-console-to-ops", "true"),
  ("broadcast-rcon-to-ops", "true"),
  ("bug-report-link", ""),
  ("difficulty", "easy"),
  ("enable-code-of-conduct", "false"),
  ("enable-jmx-monitoring", "false"),
  ("enable-query", "false"),
  ("enable-rcon", "false"),
  ("enable-status", "true"),
  ("enforce-secure-profile", "true"),
  ("enforce-whitelist", "false"),
  ("entity-broadcast-range-percentage", "100"),
  ("force-gamemode", "false"),
  ("function-permission-level", "2"),
  ("gamemode", "survival"),
  ("generate-structures", "true"),
  ("generator-settings", "\x7b\x7d"),
  ("hardcore", "false"),
  ("hide-online-players", "false"),
  ("initial-disabled-packs", ""),
  ("initial-enabled-packs", "vanilla"),
  ("level-name", "world"),
  ("level-seed", ""),
  ("level-type", "minecraft\\:normal"),
  ("log-ips", "true"),
  ("management-server-allowed-origins", ""),
  ("management-server-enabled", "false"),
  ("management-server-host", "localhost"),
  ("management-server-port", "0"),
  ("management-server-secret", ""),
  ("management-server-tls-enabled", "true"),
  ("management-server-tls-keystore", ""),
  ("management-server-tls-keystore-password", ""),
  ("max-chained-neighbor-updates", "1000000"),
  ("max-players", "20"),
  ("max-tick-time", "60000"),
  ("max-world-size", "29999984"),
  ("motd", "A Minecraft Server"),
  ("network-compression-threshold", "256"),
  ("online-mode", "true"),
  ("op-permission-level", "4"),
  ("pause-when-empty-seconds", "-1"),
  ("player-idle-timeout", "0"),
  ("prevent-proxy-connections", "false"),
  ("query.port", "25565"),
  ("rate-limit", "0"),
  ("rcon.password", ""),
  ("rcon.port", "25575"),
  ("region-file-compression", "deflate"),
  ("require-resource-pack", "false"),
  ("resource-pack", ""),
  ("resource-pack-id", ""),
  ("resource-pack-prompt", ""),
  ("resource-pack-sha1", ""),
  ("server-ip", ""),
  ("server-port", "25565"),
  ("simulation-distance", "10"),
  ("spawn-protection", "16"),
  ("status-heartbeat-interval", "0"),
  ("sync-chunk-writes", "true"),
  ("text-filtering-config", ""),
  ("text-filtering-version", "0"),
  ("use-native-transport", "true"),
  ("view-distance", "10"),
  ("white-list", "false")]

/-- `PROPERTY_EXPLANATIONS` from `generate_modlist.py` (explanation text is
carried verbatim into each emitted entry; only the `difficulty` entry is
evaluated by a concrete theorem below, but the whole table is embedded). -/
def PROPERTY_EXPLANATIONS : List (String × String) := [
  ("accepts-transfers", "If true, the server accepts player transfers from other servers via the transfer packet."),
  ("allow-flight", "If false, players who appear to fly (without elytra/creative) may be kicked by the anti-cheat."),
  ("broadcast-console-to-ops", "If true, console command output is sent to all online ops."),
  ("broadcast-rcon-to-ops", "If true, RCON command output is sent to all online ops."),
  ("bug-report-link", "Custom URL shown in the bug report screen. Empty uses the default Mojang link."),
  ("difficulty", "Controls hostile mob damage and hunger drain. hard = mobs deal more damage, hunger can kill."),
  ("enable-code-of-conduct", "If true, shows a code-of-conduct popup to players on first join."),
  ("enable-jmx-monitoring", "Exposes JMX MBeans for monitoring server performance with external tools."),
  ("enable-query", "Enables the GameSpy4 query protocol, letting external tools poll server info on query.port."),
  ("enable-rcon", "Enables remote console access (RCON) for sending commands remotely."),
  ("enable-status", "If true, the server responds to status pings in the multiplayer server list."),
  ("enforce-secure-profile", "If true, players must have a Mojang-signed key pair. Breaks offline mode if enabled incorrectly."),
  ("enforce-whitelist", "If true, players removed from whitelist while online are kicked immediately."),
  ("entity-broadcast-range-percentage", "Percentage of default entity tracking range. Lower = entities disappear sooner, less bandwidth."),
  ("force-gamemode", "If true, players are forced into the default gamemode every time they (re)join."),
  ("function-permission-level", "Op level required to run commands inside data pack functions (1-4)."),
  ("gamemode", "Default game mode for new players: survival, creative, adventure, or spectator."),
  ("generate-structures", "If true, villages, dungeons, temples, etc. generate in new chunks."),
  ("generator-settings", "JSON object for flat/custom world generation. Only used when level-type is flat or buffet."),
  ("hardcore", "If true, players are banned on death and difficulty is locked to hard."),
  ("hide-online-players", "If true, the player list in the server status response is hidden."),
  ("initial-disabled-packs", "Comma-separated list of data packs that are disabled by default on world creation."),
  ("initial-enabled-packs", "Comma-separated list of data packs enabled by default. 'vanilla' is always included."),
  ("level-name", "Name of the world folder on disk."),
  ("level-seed", "World generation seed. Empty = random seed chosen at creation."),
  ("level-type", "World type used for generation. minecraft:normal is the standard overworld generator."),
  ("log-ips", "If true, player IP addresses are logged when they connect."),
  ("management-server-allowed-origins", "Comma-separated allowed origins for the management server HTTP endpoint."),
  ("management-server-enabled", "Enables the internal management REST API used by some monitoring tools."),
  ("management-server-host", "Hostname/IP that the management server binds to."),
  ("management-server-port", "Port for the management REST API. 0 = auto-assign."),
  ("management-server-secret", "Shared secret for authenticating management server requests."),
  ("management-server-tls-enabled", "If true, the management server uses TLS encryption."),
  ("management-server-tls-keystore", "Path to the TLS keystore file for the management server."),
  ("management-server-tls-keystore-password", "Password for the management server TLS keystore."),
  ("max-chained-neighbor-updates", "Limits cascading block updates (e.g. redstone chains). Prevents lag from massive chain reactions."),
  ("max-players", "Maximum number of players that can be connected simultaneously."),
  ("max-tick-time", "Milliseconds a single tick can take before the watchdog kills the server. -1 disables the watchdog."),
  ("max-world-size", "Maximum world border radius in blocks. Limits how far players can travel."),
  ("motd", "Message of the day displayed in the multiplayer server list."),
  ("network-compression-threshold", "Packets larger than this (bytes) are compressed. Higher = less CPU, slightly more bandwidth. -1 disables."),
  ("online-mode", "If false, the server skips Mojang authentication. Required for offline/cracked clients (EasyAuth handles auth instead)."),
  ("op-permission-level", "Default permission level granted to ops (1-4). 4 = full access including /stop."),
  ("pause-when-empty-seconds", "Seconds after the last player leaves before the server pauses ticking. -1 = never pause."),
  ("player-idle-timeout", "Minutes of inactivity before a player is kicked. 0 = never kick idle players."),
  ("prevent-proxy-connections", "If true, the server blocks connections from known VPN/proxy IPs using the Mojang API."),
  ("query.port", "Port used for the GameSpy4 query protocol (if enable-query is true)."),
  ("rate-limit", "Maximum number of packets a client can send per second. 0 = no limit."),
  ("rcon.password", "Password required for RCON connections. Empty = RCON disabled even if enable-rcon is true."),
  ("rcon.port", "Port used for RCON remote console connections."),
  ("region-file-compression", "Compression algorithm for region files. 'deflate' is standard; 'lz4' is faster but uses more disk."),
  ("require-resource-pack", "If true, players who decline the server resource pack are disconnected."),
  ("resource-pack", "URL to a resource pack (.zip) that clients are prompted to download."),
  ("resource-pack-id", "UUID identifying the resource pack. Avoids re-downloading if the pack hasn't changed."),
  ("resource-pack-prompt", "Custom message shown when prompting the player to accept the resource pack."),
  ("resource-pack-sha1", "SHA-1 hash of the resource pack file. Used to verify download integrity."),
  ("server-ip", "IP address the server binds to. Empty = binds to all available interfaces (0.0.0.0)."),
  ("server-port", "The network port the server listens on for player connections."),
  ("simulation-distance", "Chunk radius around each player that is actively ticked (mobs move, crops grow). Lower saves CPU."),
  ("spawn-protection", "Block radius around world spawn where only ops can build/break. 0 disables protection."),
  ("status-heartbeat-interval", "Overrides the heartbeat interval for the status endpoint. 0 uses the default."),
  ("sync-chunk-writes", "If true, chunk writes are synchronous (safer but slower). false = async, risks corruption on crash."),
  ("text-filtering-config", "Path to a text filtering configuration file for chat message filtering."),
  ("text-filtering-version", "Version of the text filtering protocol to use. 0 = default."),
  ("use-native-transport", "If true, uses optimized Linux epoll for networking. Disable if you experience connection issues."),
  ("view-distance", "Chunk radius the server sends to each player. Higher = more visible terrain, more bandwidth and memory."),
  ("white-list", "If true, only players listed in whitelist.json can join the server.")]

/-- `SECRET_PROPERTIES` from `generate_modlist.py`: properties whose
values must never appear in the generated HTML. -/
def SECRET_PROPERTIES : List String :=
  ["rcon.password", "management-server-secret", "management-server-tls-keystore-password"]

/-- `REDACTED` from `generate_modlist.py`. -/
def REDACTED : String := "********"

/-- One emitted server.properties entry (the dict built at the end of the
parsing loop in `collect_server_properties`); `defaultVal` is the source
dict's `default` field. -/
structure PropEntry where
  key : String
  value : String
  defaultVal : String
  changed : Bool
  explanation : String
deriving DecidableEq

/-- The redaction step `if key in SECRET_PROPERTIES and value: value = REDACTED`. -/
def redactValue (k v : String) : String :=
  if k ∈ SECRET_PROPERTIES ∧ v ≠ "" then REDACTED else v

/-- `default = SERVER_DEFAULTS.get(key)` rendered as the emitted field
(`default if default is not None else "?"`). -/
def defaultOf (k : String) : String := (lookupKV SERVER_DEFAULTS k).getD "?"

/-- `is_changed = default is not None and value != default`, applied to the
(post-redaction) stored value, exactly as in the source. -/
def isChangedOf (k v2 : String) : Bool :=
  match lookupKV SERVER_DEFAULTS k with
  | some d => decide (v2 ≠ d)
  | none => false

/-- `explanation = PROPERTY_EXPLANATIONS.get(key, "")`. -/
def explOf (k : String) : String := (lookupKV PROPERTY_EXPLANATIONS k).getD ""

/-- The entry `collect_server_properties` builds from a parsed key and
(stripped, pre-redaction) value. -/
def mkPropEntry (k v : String) : PropEntry :=
  ⟨k, redactValue k v, defaultOf k, isChangedOf k (redactValue k v), explOf k⟩

/-- One iteration of the parsing loop of `collect_server_properties`:
strip the line, skip blanks, comments and lines without `=`, otherwise
split at the first `=` and build the entry. -/
def propEntryOfLine (rawLine : String) : Option PropEntry :=
  let line := pyStrip rawLine
  if line = "" then none
  else if pyStartsWith line "#" then none
  else if pyInStr "=" line then
    let p := partAtEq line.data
    some (mkPropEntry (pyStrip (String.mk p.1)) (pyStrip (String.mk p.2)))
  else none

/-- `collect_server_properties` on the raw file text: the full entry list
and the changed subset.  (Python `splitlines` is modelled as splitting on
newline; stray carriage returns are stripped as whitespace anyway.) -/
def collectServerProperties (raw : String) : List PropEntry × List PropEntry :=
  let props := (pySplitLines raw).filterMap propEntryOfLine
  (props, props.filter (fun e => e.changed))

/-- Written from the spec's words for claim C3: the diff classification of
the real, pre-redaction value against the known default (`is_changed` is
`current != default` and only meaningful when a default is known). -/
def changedAgainstDefault (k v : String) : Bool :=
  match lookupKV SERVER_DEFAULTS k with
  | some d => decide (v ≠ d)
  | none => false

example :
    collectServerProperties "difficulty=hard" =
      ([⟨"difficulty", "hard", "easy", true,
         "Controls hostile mob damage and hunger drain. hard = mobs deal more damage, hunger can kill."⟩],
       [⟨"difficulty", "hard", "easy", true,
         "Controls hostile mob damage and hunger drain. hard = mobs deal more damage, hunger can kill."⟩]) := by
  decide

example : (mkPropEntry "rcon.password" "hunter2").value = "********" := by decide

example : (mkPropEntry "rcon.password" "hunter2").changed = true := by decide

example : (mkPropEntry "nonexistent-key" "x").changed = false := by decide

example : (mkPropEntry "nonexistent-key" "x").defaultVal = "?" := by decide

theorem propEntryOfLine_shape :
    ∀ line e, propEntryOfLine line = some e → ∃ k v : String, e = mkPropEntry k v := by
  intro line e h
  simp only [propEntryOfLine] at h
  split at h
  · cases h
  · split at h
    · cases h
    · split at h
      · exact ⟨_, _, (Option.some_inj.mp h).symm⟩
      · cases h

theorem mem_props_shape :
    ∀ raw : String, ∀ e ∈ (collectServerProperties raw).1,
      ∃ k v : String, e = mkPropEntry k v := by
  intro raw e he
  simp only [collectServerProperties, List.mem_filterMap] at he
  obtain ⟨line, _, hl⟩ := he
  exact propEntryOfLine_shape line e hl

/-- Claim C3: for every server.properties key in the configured secret set
with a non-empty value, the `changed` flag of the emitted entry equals the
comparison of the real (pre-redaction) value against the known default, so
redacting the value never alters the diff classification; and every entry
emitted by the collector is of the analysed shape. -/
theorem C3_redaction_preserves_diff :
    (∀ k v : String, k ∈ SECRET_PROPERTIES → v ≠ "" →
      (mkPropEntry k v).changed = changedAgainstDefault k v) ∧
    (∀ raw : String, ∀ e ∈ (collectServerProperties raw).1,
      ∃ k v : String, e = mkPropEntry k v) := by
  constructor
  · intro k v hk hv
    have hred : redactValue k v = REDACTED := by
      simp [redactValue, hk, hv]
    have hchanged : (mkPropEntry k v).changed = isChangedOf k REDACTED := by
      simp [mkPropEntry, hred]
    have hd : lookupKV SERVER_DEFAULTS k = some "" := by
      fin_cases hk <;> decide
    rw [hchanged]
    unfold isChangedOf changedAgainstDefault
    rw [hd]
    simp [REDACTED, hv]
  · exact mem_props_shape

theorem C3_redaction_preserves_diff_witness :
    (mkPropEntry "rcon.password" "hunter2").changed =
      changedAgainstDefault "rcon.password" "hunter2" :=
  C3_redaction_preserves_diff.1 "rcon.password" "hunter2" (by decide) (by decide)

/-- Claim C4: for every key in the configured secret set whose parsed value
is non-empty, the emitted entry's value is exactly the fixed placeholder
`"********"`, never the real value; every collector entry has the analysed
shape. -/
theorem C4_secret_value_redacted :
    (∀ k v : String, k ∈ SECRET_PROPERTIES → v ≠ "" →
      (mkPropEntry k v).value = REDACTED) ∧
    (∀ raw : String, ∀ e ∈ (collectServerProperties raw).1,
      ∃ k v : String, e = mkPropEntry k v) := by
  constructor
  · intro k v hk hv
    simp [mkPropEntry, redactValue, hk, hv]
  · exact mem_props_shape

theorem C4_secret_value_redacted_witness :
    (mkPropEntry "management-server-secret" "tok3n").value = REDACTED :=
  C4_secret_value_redacted.1 "management-server-secret" "tok3n" (by decide) (by decide)

/-! ## Tagged-tree (NBT) binary reader (`generate_modlist.py`) -/

/-- A Python `io.BytesIO` over the gunzipped level.dat bytes: the byte
list (each entry < 256) and the read position. -/
structure ByteStream where
  data : List Nat
  pos : Nat
deriving DecidableEq

/-- Bytes not yet read. -/
def bsRemaining (s : ByteStream) : Nat := s.data.length - s.pos

/-- Python `f.read(n)`: at most `n` bytes (all remaining bytes when `n`
is negative, as `BytesIO.read` does for a negative count). -/
def bsRead (s : ByteStream) (n : Int) : List Nat × ByteStream :=
  let rem := s.data.drop s.pos
  if n < 0 then (rem, ⟨s.data, s.data.length⟩)
  else
    let chunk := rem.take n.toNat
    (chunk, ⟨s.data, s.pos + chunk.length⟩)

/-- Big-endian value of a byte list. -/
def beVal (l : List Nat) : Nat := l.foldl (fun a b => a * 256 + b) 0

/-- Two's-complement reading of a `width`-byte big-endian value. -/
def toSigned (v : Nat) (width : Nat) : Int :=
  if v < 2 ^ (8 * width - 1) then (v : Int) else (v : Int) - 2 ^ (8 * width)

/-- `struct.unpack` of one big-endian signed integer of `width` bytes:
raises `struct.error` (modelled as `Except.error`) when fewer than
`width` bytes remain. -/
def unpackBE (s : ByteStream) (width : Nat) : Except String (Int × ByteStream) :=
  let r := bsRead s (width : Int)
  if r.1.length = width then .ok (toSigned (beVal r.1) width, r.2)
  else .error "struct.error"

/-- Strict UTF-8 decoding, mirroring Python `bytes.decode("utf-8")`:
rejects invalid lead bytes, overlong encodings, surrogates and values
above U+10FFFF, and truncated sequences. -/
def utf8Dec : List Nat → Option (List Char)
  | [] => some []
  | b :: rest =>
    if b < 0x80 then (utf8Dec rest).map (fun t => Char.ofNat b :: t)
    else if b < 0xC2 then none
    else if b ≤ 0xDF then
      match rest with
      | c1 :: r2 =>
        if 0x80 ≤ c1 ∧ c1 ≤ 0xBF then
          (utf8Dec r2).map (fun t => Char.ofNat ((b - 0xC0) * 64 + (c1 - 0x80)) :: t)
        else none
      | [] => none
    else if b ≤ 0xEF then
      match rest with
      | c1 :: c2 :: r3 =>
        if (if b = 0xE0 then 0xA0 else 0x80) ≤ c1 ∧
            c1 ≤ (if b = 0xED then 0x9F else 0xBF) ∧
            0x80 ≤ c2 ∧ c2 ≤ 0xBF then
          (utf8Dec r3).map
            (fun t => Char.ofNat ((b - 0xE0) * 4096 + (c1 - 0x80) * 64 + (c2 - 0x80)) :: t)
        else none
      | _ => none
    else if b ≤ 0xF4 then
      match rest with
      | c1 :: c2 :: c3 :: r4 =>
        if (if b = 0xF0 then 0x90 else 0x80) ≤ c1 ∧
            c1 ≤ (if b = 0xF4 then 0x8F else 0xBF) ∧
            0x80 ≤ c2 ∧ c2 ≤ 0xBF ∧ 0x80 ≤ c3 ∧ c3 ≤ 0xBF then
          (utf8Dec r4).map
            (fun t => Char.ofNat
              ((b - 0xF0) * 262144 + (c1 - 0x80) * 4096 + (c2 - 0x80) * 64 + (c3 - 0x80)) :: t)
        else none
      | _ => none
    else none

/-- Python `chunk.decode("utf-8")` as an `Except` (a decode failure is an
uncaught-within-the-decoder `UnicodeDecodeError`). -/
def pyDecodeUtf8 (bs : List Nat) : Except String String :=
  match utf8Dec bs with
  | some cs => .ok (String.mk cs)
  | none => .error "UnicodeDecodeError"

/-- The decoded tagged tree.  Python floats (tags 5 and 6) are carried as
their raw big-endian bytes, since no claim inspects IEEE float values;
the decoder's control flow (byte counts, error behaviour) is unchanged. -/
inductive NBT where
  | byteTag (v : Int)
  | shortTag (v : Int)
  | intTag (v : Int)
  | longTag (v : Int)
  | floatTag (raw : List Nat)
  | doubleTag (raw : List Nat)
  | byteArr (bs : List Nat)
  | strTag (s : String)
  | listTag (items : List NBT)
  | compound (entries : List (String × NBT))
  | intArr (xs : List Int)
  | longArr (xs : List Int)
  | noneTag

/-- Python `range(n)` length for a signed count (negative → empty). -/
def pyRangeLen (n : Int) : Nat := n.toNat

/-- `[_parse_nbt_payload(f, item_type) for _ in range(n)]`: the list loop
of tag 9, parameterised by the payload parser for the item type. -/
def iterList (p : ByteStream → Int → Except String (NBT × ByteStream)) (itemTag : Int) :
    Nat → ByteStream → Except String (List NBT × ByteStream)
  | 0, s => .ok ([], s)
  | k + 1, s => do
    let r ← p s itemTag
    let rest ← iterList p itemTag k r.2
    .ok (r.1 :: rest.1, rest.2)

/-- The typed-array loops of tags 11 and 12: `n` big-endian signed
integers of the given width. -/
def iterArr (width : Nat) : Nat → ByteStream → Except String (List Int × ByteStream)
  | 0, s => .ok ([], s)
  | k + 1, s => do
    let r ← unpackBE s width
    let rest ← iterArr width k r.2
    .ok (r.1 :: rest.1, rest.2)

/-- The `while True` child loop of tag 10 (compound): read a child tag
byte, stop at 0, else read the length-prefixed name and the child
payload, entering children into the dict in insertion order with
overwrite.  `loopFuel` only bounds the iteration count; every iteration
consumes at least the child-tag byte, so the `bsRemaining s + 1` supplied
by the caller can never run out. -/
def iterCompound (p : ByteStream → Int → Except String (NBT × ByteStream)) :
    Nat → List (String × NBT) → ByteStream → Except String (List (String × NBT) × ByteStream)
  | 0, _, _ => .error "compound loop fuel exhausted"
  | lf + 1, acc, s => do
    let ct ← unpackBE s 1
    if ct.1 = 0 then .ok (acc, ct.2)
    else do
      let cl ← unpackBE ct.2 2
      let nm := bsRead cl.2 cl.1
      let cname ← pyDecodeUtf8 nm.1
      let v ← p nm.2 ct.1
      iterCompound p lf (insertKV acc cname v.1) v.2

/-- `_parse_nbt_payload` from `generate_modlist.py`.  Fuel bounds only the
nesting depth of the recursion (each nested level consumes at least one
byte before recursing, so `readLevelDat`'s `length + 1` fuel suffices);
list element counts are iterated structurally exactly as Python does. -/
def parseNBT : Nat → ByteStream → Int → Except String (NBT × ByteStream)
  | 0, _, _ => .error "recursion fuel exhausted"
  | fuel + 1, s, tag =>
    if tag = 1 then (unpackBE s 1).map (fun r => (.byteTag r.1, r.2))
    else if tag = 2 then (unpackBE s 2).map (fun r => (.shortTag r.1, r.2))
    else if tag = 3 then (unpackBE s 4).map (fun r => (.intTag r.1, r.2))
    else if tag = 4 then (unpackBE s 8).map (fun r => (.longTag r.1, r.2))
    else if tag = 5 then
      let r := bsRead s 4
      if r.1.length = 4 then .ok (.floatTag r.1, r.2) else .error "struct.error"
    else if tag = 6 then
      let r := bsRead s 8
      if r.1.length = 8 then .ok (.doubleTag r.1, r.2) else .error "struct.error"
    else if tag = 7 then do
      let n ← unpackBE s 4
      let r := bsRead n.2 n.1
      .ok (.byteArr r.1, r.2)
    else if tag = 8 then do
      let n ← unpackBE s 2
      let r := bsRead n.2 n.1
      let str ← pyDecodeUtf8 r.1
      .ok (.strTag str, r.2)
    else if tag = 9 then do
      let it ← unpackBE s 1
      let n ← unpackBE it.2 4
      let r ← iterList (parseNBT fuel) it.1 (pyRangeLen n.1) n.2
      .ok (.listTag r.1, r.2)
    else if tag = 10 then do
      let r ← iterCompound (parseNBT fuel) (bsRemaining s + 1) [] s
      .ok (.compound r.1, r.2)
    else if tag = 11 then do
      let n ← unpackBE s 4
      let r ← iterArr 4 (pyRangeLen n.1) n.2
      .ok (.intArr r.1, r.2)
    else if tag = 12 then do
      let n ← unpackBE s 4
      let r ← iterArr 8 (pyRangeLen n.1) n.2
      .ok (.longArr r.1, r.2)
    else .ok (.noneTag, s)

/-- `_read_level_dat` after gunzip: read the root tag byte, skip the
length-prefixed root name, and parse the root payload.  (The gzip
container is outside the decoder; `bytes` is the decompressed stream.) -/
def readLevelDat (bytes : List Nat) : Except String NBT := do
  let s0 : ByteStream := ⟨bytes, 0⟩
  let tag ← unpackBE s0 1
  let nlen ← unpackBE tag.2 2
  let nm := bsRead nlen.2 nlen.1
  let r ← parseNBT (bytes.length + 1) nm.2 tag.1
  .ok r.1

example : readLevelDat [13, 0, 0] = .ok .noneTag := rfl

example : parseNBT 1 ⟨[0, 5, 97, 98, 99], 0⟩ 8 = .ok (.strTag "abc", ⟨[0, 5, 97, 98, 99], 5⟩) :=
  rfl

example : parseNBT 1 ⟨[255], 0⟩ 3 = .error "struct.error" := rfl

/-! ## Gamerule collector (`generate_modlist.py`) -/

/-- `GAMERULE_DEFAULTS` from `generate_modlist.py` (all values are strings
in the NBT, as the source notes). -/
def GAMERULE_DEFAULTS : List (String × String) := [
  ("minecraft:advance_time", "1"),
  ("minecraft:advance_weather", "1"),
  ("minecraft:allow_entering_nether_using_portals", "1"),
  ("minecraft:block_drops", "1"),
  ("minecraft:block_explosion_drop_decay", "1"),
  ("minecraft:command_block_output", "1"),
  ("minecraft:command_blocks_work", "1"),
  ("minecraft:drowning_damage", "1"),
  ("minecraft:elytra_movement_check", "1"),
  ("minecraft:ender_pearls_vanish_on_death", "1"),
  ("minecraft:entity_drops", "1"),
  ("minecraft:fall_damage", "1"),
  ("minecraft:fire_damage", "1"),
  ("minecraft:fire_spread_radius_around_player", "128"),
  ("minecraft:forgive_dead_players", "1"),
  ("minecraft:freeze_damage", "1"),
  ("minecraft:global_sound_events", "1"),
  ("minecraft:immediate_respawn", "0"),
  ("minecraft:keep_inventory", "0"),
  ("minecraft:lava_source_conversion", "0"),
  ("minecraft:limited_crafting", "0"),
  ("minecraft:locator_bar", "1"),
  ("minecraft:log_admin_commands", "1"),
  ("minecraft:max_block_modifications", "32768"),
  ("minecraft:max_command_forks", "65536"),
  ("minecraft:max_command_sequence_length", "65536"),
  ("minecraft:max_entity_cramming", "24"),
  ("minecraft:max_snow_accumulation_height", "1"),
  ("minecraft:mob_drops", "1"),
  ("minecraft:mob_explosion_drop_decay", "1"),
  ("minecraft:mob_griefing", "1"),
  ("minecraft:natural_health_regeneration", "1"),
  ("minecraft:player_movement_check", "1"),
  ("minecraft:players_nether_portal_creative_delay", "0"),
  ("minecraft:players_nether_portal_default_delay", "80"),
  ("minecraft:players_sleeping_percentage", "100"),
  ("minecraft:projectiles_can_break_blocks", "1"),
  ("minecraft:pvp", "1"),
  ("minecraft:raids", "1"),
  ("minecraft:random_tick_speed", "3"),
  ("minecraft:reduced_debug_info", "0"),
  ("minecraft:respawn_radius", "10"),
  ("minecraft:send_command_feedback", "1"),
  ("minecraft:show_advancement_messages", "1"),
  ("minecraft:show_death_messages", "1"),
  ("minecraft:spawn_mobs", "1"),
  ("minecraft:spawn_monsters", "1"),
  ("minecraft:spawn_patrols", "1"),
  ("minecraft:spawn_phantoms", "1"),
  ("minecraft:spawn_wandering_traders", "1"),
  ("minecraft:spawn_wardens", "1"),
  ("minecraft:spawner_blocks_work", "1"),
  ("minecraft:spectators_generate_chunks", "1"),
  ("minecraft:spread_vines", "1"),
  ("minecraft:tnt_explodes", "1"),
  ("minecraft:tnt_explosion_drop_decay", "0"),
  ("minecraft:universal_anger", "0"),
  ("minecraft:water_source_conversion", "1")]

/-- `GAMERULE_EXPLANATIONS` from `generate_modlist.py`. -/
def GAMERULE_EXPLANATIONS : List (String × String) := [
  ("minecraft:advance_time", "Whether in-game time of day advances."),
  ("minecraft:advance_weather", "Whether weather patterns change over time."),
  ("minecraft:allow_entering_nether_using_portals", "Whether players can use nether portals to travel between dimensions."),
  ("minecraft:block_drops", "Whether blocks drop items when broken."),
  ("minecraft:block_explosion_drop_decay", "Whether some block drops are destroyed by block-caused explosions (TNT)."),
  ("minecraft:command_block_output", "Whether command blocks show their output in chat."),
  ("minecraft:command_blocks_work", "Whether command blocks can execute commands."),
  ("minecraft:drowning_damage", "Whether players and mobs take drowning damage."),
  ("minecraft:elytra_movement_check", "Whether the server validates elytra flight speed to prevent cheating."),
  ("minecraft:ender_pearls_vanish_on_death", "Whether thrown ender pearls disappear when the player dies."),
  ("minecraft:entity_drops", "Whether entities (excluding blocks) drop items on death."),
  ("minecraft:fall_damage", "Whether players and mobs take fall damage."),
  ("minecraft:fire_damage", "Whether players and mobs take fire/lava damage."),
  ("minecraft:fire_spread_radius_around_player", "Block radius around players within which fire can spread. 0 disables fire spread."),
  ("minecraft:forgive_dead_players", "Whether angered neutral mobs stop being angry when the target player dies."),
  ("minecraft:freeze_damage", "Whether players and mobs take freezing damage from powder snow."),
  ("minecraft:global_sound_events", "Whether certain sounds (e.g. wither spawning) are heard globally."),
  ("minecraft:immediate_respawn", "Whether players respawn instantly without the death screen."),
  ("minecraft:keep_inventory", "Whether players keep their inventory and XP on death."),
  ("minecraft:lava_source_conversion", "Whether lava can form source blocks (like water does)."),
  ("minecraft:limited_crafting", "Whether players can only craft recipes they have unlocked."),
  ("minecraft:locator_bar", "Whether the boss bar / locator bar displays at the top of the screen."),
  ("minecraft:log_admin_commands", "Whether admin commands are logged to the server log."),
  ("minecraft:max_block_modifications", "Maximum number of block changes per tick from commands."),
  ("minecraft:max_command_forks", "Maximum number of command forks (e.g. /execute) allowed."),
  ("minecraft:max_command_sequence_length", "Maximum length of a command sequence that can execute in a single tick."),
  ("minecraft:max_entity_cramming", "Maximum number of entities that can push into the same block before suffocation damage begins."),
  ("minecraft:max_snow_accumulation_height", "Maximum layers of snow that can accumulate from snowfall."),
  ("minecraft:mob_drops", "Whether mobs drop loot on death."),
  ("minecraft:mob_explosion_drop_decay", "Whether some block drops are destroyed by mob-caused explosions (creepers, ghasts)."),
  ("minecraft:mob_griefing", "Whether mobs can modify blocks (creeper explosions, endermen picking up blocks, etc.)."),
  ("minecraft:natural_health_regeneration", "Whether players naturally regenerate health when their hunger bar is full."),
  ("minecraft:player_movement_check", "Whether the server validates player movement to prevent cheating."),
  ("minecraft:players_nether_portal_creative_delay", "Ticks a creative-mode player must stand in a nether portal before teleporting. 0 = instant."),
  ("minecraft:players_nether_portal_default_delay", "Ticks a survival/adventure player must stand in a nether portal before teleporting."),
  ("minecraft:players_sleeping_percentage", "Percentage of online players that must sleep to skip the night. 100 = all, 0 = one player suffices."),
  ("minecraft:projectiles_can_break_blocks", "Whether projectiles (arrows, tridents) can break certain blocks like chorus flowers."),
  ("minecraft:pvp", "Whether players can deal damage to other players."),
  ("minecraft:raids", "Whether raids can spawn when a player with Bad Omen enters a village."),
  ("minecraft:random_tick_speed", "Speed of random block ticks (crop growth, leaf decay, etc.). Default 3, higher = faster."),
  ("minecraft:reduced_debug_info", "Whether the debug screen (F3) shows reduced information."),
  ("minecraft:respawn_radius", "Block radius around the world spawn within which players randomly respawn."),
  ("minecraft:send_command_feedback", "Whether command execution results are shown in chat."),
  ("minecraft:show_advancement_messages", "Whether advancement completion messages are broadcast in chat."),
  ("minecraft:show_death_messages", "Whether death messages are shown in chat."),
  ("minecraft:spawn_mobs", "Whether passive/neutral mobs can spawn naturally."),
  ("minecraft:spawn_monsters", "Whether hostile mobs can spawn naturally."),
  ("minecraft:spawn_patrols", "Whether pillager patrols can spawn."),
  ("minecraft:spawn_phantoms", "Whether phantoms can spawn for players who haven't slept."),
  ("minecraft:spawn_wandering_traders", "Whether wandering traders can spawn naturally."),
  ("minecraft:spawn_wardens", "Whether wardens can spawn when triggered by sculk shriekers."),
  ("minecraft:spawner_blocks_work", "Whether mob spawner blocks can spawn entities."),
  ("minecraft:spectators_generate_chunks", "Whether spectator-mode players cause chunk generation."),
  ("minecraft:spread_vines", "Whether vines (and similar blocks) can spread to adjacent surfaces."),
  ("minecraft:tnt_explodes", "Whether TNT blocks explode when ignited."),
  ("minecraft:tnt_explosion_drop_decay", "Whether some block drops are destroyed by TNT explosions."),
  ("minecraft:universal_anger", "Whether angered neutral mobs attack all nearby players, not just the one who provoked them."),
  ("minecraft:water_source_conversion", "Whether water can form new source blocks when flowing between two existing sources.")]

/-- Python `str(...)` of a decoded NBT value, as `collect_gamerules`
applies it.  Exact for the integer tags and for strings — the only value
shapes gamerules take (the source itself notes "all values are strings in
the NBT"); the remaining branches return markers because Python's repr of
floats, byte strings and containers is not needed by any claim. -/
def pyStr : NBT → String
  | .byteTag v => toString v
  | .shortTag v => toString v
  | .intTag v => toString v
  | .longTag v => toString v
  | .strTag s => s
  | .floatTag _ => "<float repr unmodelled>"
  | .doubleTag _ => "<float repr unmodelled>"
  | .byteArr _ => "<bytes repr unmodelled>"
  | .listTag _ => "<list repr unmodelled>"
  | .compound _ => "<dict repr unmodelled>"
  | .intArr _ => "<list repr unmodelled>"
  | .longArr _ => "<list repr unmodelled>"
  | .noneTag => "None"

/-- Python string `<` (code-point lexicographic). -/
def chLt : List Char → List Char → Bool
  | [], [] => false
  | [], _ :: _ => true
  | _ :: _, [] => false
  | a :: as, b :: bs => if a = b then chLt as bs else decide (a < b)

/-- Insert one key/value pair into a key-sorted list (stable). -/
def insSortedPair (p : String × NBT) : List (String × NBT) → List (String × NBT)
  | [] => [p]
  | q :: rest =>
    if chLt p.1.data q.1.data then p :: q :: rest else q :: insSortedPair p rest

/-- `sorted(game_rules.keys())` applied to the pairs (dict keys are
unique, so sorting the pairs by key and indexing is the same). -/
def sortPairsByKey (l : List (String × NBT)) : List (String × NBT) :=
  l.foldr insSortedPair []

/-- One emitted gamerule entry. -/
structure RuleEntry where
  key : String
  displayKey : String
  value : String
  defaultVal : String
  changed : Bool
  explanation : String
deriving DecidableEq

/-- `default if default is not None else "?"` for gamerules. -/
def ruleDefaultOf (k : String) : String := (lookupKV GAMERULE_DEFAULTS k).getD "?"

/-- `is_changed = default is not None and value != default` for gamerules. -/
def ruleChangedOf (k value : String) : Bool :=
  match lookupKV GAMERULE_DEFAULTS k with
  | some d => decide (value ≠ d)
  | none => false

/-- The entry `collect_gamerules` builds for one rule key and decoded value. -/
def mkRuleEntry (k : String) (v : NBT) : RuleEntry :=
  let value := pyStr v
  let displayKey := if pyStartsWith k "minecraft:" then pyReplaceAll k "minecraft:" "" else k
  ⟨k, displayKey, value, ruleDefaultOf k, ruleChangedOf k value,
    (lookupKV GAMERULE_EXPLANATIONS k).getD ""⟩

/-- The entry loop of `collect_gamerules` over the decoded `game_rules`
dict: iterate the keys in sorted order, build entries, collect the
changed subset. -/
def collectGamerulesEntries (rules : List (String × NBT)) : List RuleEntry × List RuleEntry :=
  let entries := (sortPairsByKey rules).map (fun kv => mkRuleEntry kv.1 kv.2)
  (entries, entries.filter (fun e => e.changed))

/-- `collect_gamerules` on the gunzipped level.dat bytes.  The `try`
block covers `_read_level_dat` and the `root.get("Data", {}).get
("game_rules", {})` chain, so a decode error or a non-dict `root`/`Data`
(an `AttributeError` on `.get`) degrades to empty lists; a non-dict
`game_rules` value would raise outside the `try` (modelled as `.error`). -/
def collectGamerules (bytes : List Nat) : Except String (List RuleEntry × List RuleEntry) :=
  match readLevelDat bytes with
  | .error _ => .ok ([], [])
  | .ok root =>
    match root with
    | .compound topEntries =>
      match (lookupKV topEntries "Data").getD (.compound []) with
      | .compound dataEntries =>
        match (lookupKV dataEntries "game_rules").getD (.compound []) with
        | .compound rules => .ok (collectGamerulesEntries rules)
        | _ => .error "AttributeError outside the try block"
      | _ => .ok ([], [])
    | _ => .ok ([], [])

example :
    collectGamerulesEntries [("minecraft:pvp", .strTag "0")] =
      ([⟨"minecraft:pvp", "pvp", "0", "1", true, "Whether players can deal damage to other players."⟩],
       [⟨"minecraft:pvp", "pvp", "0", "1", true, "Whether players can deal damage to other players."⟩]) := by
  decide

theorem bsRead_fst_length (s : ByteStream) (w : Nat) :
    ((bsRead s (w : Int)).1).length = min w (bsRemaining s) := by
  have hn : ¬((w : Int) < 0) := by omega
  simp [bsRead, hn, bsRemaining, List.length_take, List.length_drop]

theorem bsRead_fst_length_int (s : ByteStream) (n : Int) (hn : 0 ≤ n) :
    ((bsRead s n).1).length = min n.toNat (bsRemaining s) := by
  have h2 : ¬(n < 0) := by omega
  simp [bsRead, h2, bsRemaining, List.length_take, List.length_drop]

theorem unpackBE_short (s : ByteStream) (w : Nat) (h : bsRemaining s < w) :
    unpackBE s w = .error "struct.error" := by
  unfold unpackBE
  rw [if_neg]
  rw [bsRead_fst_length]
  omega

theorem mem_rules_shape :
    ∀ rules : List (String × NBT), ∀ e ∈ (collectGamerulesEntries rules).1,
      ∃ (k : String) (v : NBT), e = mkRuleEntry k v := by
  intro rules e he
  simp only [collectGamerulesEntries, List.mem_map] at he
  obtain ⟨kv, _, hkv⟩ := he
  exact ⟨kv.1, kv.2, hkv.symm⟩

/-- Claim C5: default-diff behaviour of the server-properties and
gamerule collectors.  Keys absent from the defaults table are never
flagged changed and carry the `"?"` sentinel; keys present whose (stored)
string value differs textually from the default are flagged changed and
land in the changed subset; `difficulty=hard` against default `easy`
yields exactly one changed entry. -/
theorem C5_default_diff :
    (∀ k v : String, lookupKV SERVER_DEFAULTS k = none →
      (mkPropEntry k v).changed = false ∧ (mkPropEntry k v).defaultVal = "?") ∧
    (∀ k v d : String, lookupKV SERVER_DEFAULTS k = some d → v ≠ d →
      (mkPropEntry k v).changed = true) ∧
    (∀ raw : String, ∀ e ∈ (collectServerProperties raw).1, e.changed = true →
      e ∈ (collectServerProperties raw).2) ∧
    (∀ (k : String) (v : NBT), lookupKV GAMERULE_DEFAULTS k = none →
      (mkRuleEntry k v).changed = false ∧ (mkRuleEntry k v).defaultVal = "?") ∧
    (∀ (k : String) (v : NBT) (d : String), lookupKV GAMERULE_DEFAULTS k = some d →
      pyStr v ≠ d → (mkRuleEntry k v).changed = true) ∧
    (∀ rules : List (String × NBT), ∀ e ∈ (collectGamerulesEntries rules).1,
      e.changed = true → e ∈ (collectGamerulesEntries rules).2) ∧
    collectServerProperties "difficulty=hard" =
      ([⟨"difficulty", "hard", "easy", true,
         "Controls hostile mob damage and hunger drain. hard = mobs deal more damage, hunger can kill."⟩],
       [⟨"difficulty", "hard", "easy", true,
         "Controls hostile mob damage and hunger drain. hard = mobs deal more damage, hunger can kill."⟩]) := by
  refine ⟨?_, ?_, ?_, ?_, ?_, ?_, by decide⟩
  · intro k v h
    constructor
    · simp [mkPropEntry, isChangedOf, h]
    · simp [mkPropEntry, defaultOf, h]
  · intro k v d hd hv
    by_cases hs : k ∈ SECRET_PROPERTIES ∧ v ≠ ""
    · obtain ⟨hk, hv2⟩ := hs
      have hred : redactValue k v = REDACTED := by simp [redactValue, hk, hv2]
      have hd0 : lookupKV SERVER_DEFAULTS k = some "" := by fin_cases hk <;> decide
      rw [hd0] at hd
      injection hd with hdd
      subst hdd
      simp [mkPropEntry, isChangedOf, hd0, hred, REDACTED]
    · have hred : redactValue k v = v := by simp [redactValue, hs]
      simp [mkPropEntry, isChangedOf, hd, hred, hv]
  · intro raw e he hc
    simp only [collectServerProperties] at he ⊢
    exact List.mem_filter.mpr ⟨he, by simp [hc]⟩
  · intro k v h
    constructor
    · simp [mkRuleEntry, ruleChangedOf, h]
    · simp [mkRuleEntry, ruleDefaultOf, h]
  · intro k v d hd hv
    simp [mkRuleEntry, ruleChangedOf, hd, hv]
  · intro rules e he hc
    simp only [collectGamerulesEntries] at he ⊢
    exact List.mem_filter.mpr ⟨he, by simp [hc]⟩

theorem C5_default_diff_witness :
    ((mkPropEntry "no-such-key" "x").changed = false ∧
      (mkPropEntry "no-such-key" "x").defaultVal = "?") ∧
    (mkPropEntry "difficulty" "hard").changed = true ∧
    (⟨"difficulty", "hard", "easy", true,
       "Controls hostile mob damage and hunger drain. hard = mobs deal more damage, hunger can kill."⟩ : PropEntry) ∈
      (collectServerProperties "difficulty=hard").2 ∧
    ((mkRuleEntry "custom:rule" (.strTag "1")).changed = false ∧
      (mkRuleEntry "custom:rule" (.strTag "1")).defaultVal = "?") ∧
    (mkRuleEntry "minecraft:pvp" (.strTag "0")).changed = true :=
  ⟨C5_default_diff.1 "no-such-key" "x" (by decide),
   C5_default_diff.2.1 "difficulty" "hard" "easy" (by decide) (by decide),
   C5_default_diff.2.2.1 "difficulty=hard" _ (by decide) (by decide),
   C5_default_diff.2.2.2.1 "custom:rule" (.strTag "1") (by decide),
   C5_default_diff.2.2.2.2.1 "minecraft:pvp" (.strTag "0") "1" (by decide) (by decide)⟩

/-- Claim C2, counterexample: a stream whose root carries the
unrecognized type tag 13 does NOT make the decoder fail with a decode
error — `_parse_nbt_payload` returns `None` (here `noneTag`), and the
collector then degrades through the caught `AttributeError` instead of a
decode error. -/
theorem C2_counterexample :
    readLevelDat [13, 0, 0] = .ok .noneTag ∧
    collectGamerules [13, 0, 0] = .ok ([], []) := ⟨rfl, rfl⟩

/-- Claim C2, amended: a type tag outside 1–12 makes the decoder return
the `None` placeholder without consuming bytes and without an error; a
stream truncated inside a fixed-width numeric field raises a decode
error (`struct.error`); a truncated string payload silently yields the
partial bytes read; and the gamerule collector maps any decode error to
empty rule lists instead of crashing. -/
theorem C2_decode_errors_amended :
    (∀ (fuel : Nat) (s : ByteStream) (tag : Int), 0 < fuel →
      tag < 1 ∨ 12 < tag → parseNBT fuel s tag = .ok (.noneTag, s)) ∧
    (∀ (fuel : Nat) (s : ByteStream), 0 < fuel →
      (bsRemaining s < 1 → parseNBT fuel s 1 = .error "struct.error") ∧
      (bsRemaining s < 2 → parseNBT fuel s 2 = .error "struct.error") ∧
      (bsRemaining s < 4 → parseNBT fuel s 3 = .error "struct.error") ∧
      (bsRemaining s < 8 → parseNBT fuel s 4 = .error "struct.error") ∧
      (bsRemaining s < 4 → parseNBT fuel s 5 = .error "struct.error") ∧
      (bsRemaining s < 8 → parseNBT fuel s 6 = .error "struct.error")) ∧
    parseNBT 1 ⟨[0, 5, 97, 98, 99], 0⟩ 8 = .ok (.strTag "abc", ⟨[0, 5, 97, 98, 99], 5⟩) ∧
    (∀ (bytes : List Nat) (e : String), readLevelDat bytes = .error e →
      collectGamerules bytes = .ok ([], [])) := by
  refine ⟨?_, ?_, rfl, ?_⟩
  · intro fuel s tag hf ht
    cases fuel with
    | zero => omega
    | succ f =>
      have h1 : ¬tag = 1 := by omega
      have h2 : ¬tag = 2 := by omega
      have h3 : ¬tag = 3 := by omega
      have h4 : ¬tag = 4 := by omega
      have h5 : ¬tag = 5 := by omega
      have h6 : ¬tag = 6 := by omega
      have h7 : ¬tag = 7 := by omega
      have h8 : ¬tag = 8 := by omega
      have h9 : ¬tag = 9 := by omega
      have h10 : ¬tag = 10 := by omega
      have h11 : ¬tag = 11 := by omega
      have h12 : ¬tag = 12 := by omega
      simp [parseNBT, h1, h2, h3, h4, h5, h6, h7, h8, h9, h10, h11, h12]
  · intro fuel s hf
    cases fuel with
    | zero => omega
    | succ f =>
      refine ⟨fun h => ?_, fun h => ?_, fun h => ?_, fun h => ?_, fun h => ?_, fun h => ?_⟩
      · simp [parseNBT, unpackBE_short s 1 h, Except.map]
      · simp [parseNBT, unpackBE_short s 2 h, Except.map]
      · simp [parseNBT, unpackBE_short s 4 h, Except.map]
      · simp [parseNBT, unpackBE_short s 8 h, Except.map]
      · have hlen : ((bsRead s (4 : Int)).1).length ≠ 4 := by
          rw [bsRead_fst_length_int s 4 (by omega)]
          omega
        simp [parseNBT, hlen]
      · have hlen : ((bsRead s (8 : Int)).1).length ≠ 8 := by
          rw [bsRead_fst_length_int s 8 (by omega)]
          omega
        simp [parseNBT, hlen]
  · intro bytes e h
    simp [collectGamerules, h]

theorem C2_decode_errors_amended_witness :
    parseNBT 1 ⟨[], 0⟩ 13 = .ok (.noneTag, ⟨[], 0⟩) ∧
    parseNBT 1 ⟨[255], 0⟩ 3 = .error "struct.error" ∧
    collectGamerules [3, 0, 0, 7] = .ok ([], []) :=
  ⟨C2_decode_errors_amended.1 1 ⟨[], 0⟩ 13 (by decide) (by omega),
   (C2_decode_errors_amended.2.1 1 ⟨[255], 0⟩ (by decide)).2.2.1 (by decide),
   C2_decode_errors_amended.2.2.2 [3, 0, 0, 7] "struct.error" rfl⟩

/-! ## Jar filename normalization (`generate_modlist.py` `jar_to_name`,
`version_from_jar`, `JAR_NAME_OVERRIDES`, and the `fetch_mod_data.py`
variants) -/

/-- Whether a character is `-` or `_` (the `[-_]` character class). -/
def isDashU (c : Char) : Bool := c = '-' || c = '_'

/-- Length of the leading run of ASCII digits. -/
def digitRun : List Char → Nat
  | [] => 0
  | c :: r => if c.isDigit then digitRun r + 1 else 0

/-- Whether `re` would match `[-_]\d+\.` at the head of the list (the
digits of `\d+` are not dots, so only the full digit run can be followed
by the literal dot). -/
def matchVerDot (l : List Char) : Bool :=
  match l with
  | [] => false
  | c :: rest =>
    isDashU c &&
      (let r := digitRun rest
       decide (0 < r) && ((rest.drop r).headD ' ' == '.'))

/-- `re.sub(r'[-_]\d+\..*$', '', name)`: truncate at the leftmost match
(the `.*$` tail swallows the rest; the filenames contain no newline). -/
def truncAtVerDot : List Char → List Char
  | [] => []
  | c :: rest => if matchVerDot (c :: rest) then [] else c :: truncAtVerDot rest

/-- `re.sub(r'[-_]<token>.*$', '', name, flags=I)`: truncate at the
leftmost dash/underscore followed (case-insensitively) by the token. -/
def truncAtTokenCI (tok : List Char) : List Char → List Char
  | [] => []
  | c :: rest =>
    if isDashU c && chHasPre tok (rest.map Char.toLower) then []
    else c :: truncAtTokenCI tok rest

/-- `re.sub(r'[-_]mc\d.*$', '', name, flags=I)`. -/
def truncAtMcDigit : List Char → List Char
  | [] => []
  | c :: rest =>
    if isDashU c &&
        (match rest.map Char.toLower with
         | 'm' :: 'c' :: d :: _ => d.isDigit
         | _ => false) then []
    else c :: truncAtMcDigit rest

/-- `jar_to_name` from `generate_modlist.py`: strip `.jar`, the trailing
version suffix, the loader/mc-version suffixes, then turn separators into
spaces and strip. -/
def jarToName (jar : String) : String :=
  let n := replAllChars ".jar".data [] jar.data
  let n := truncAtVerDot n
  let n := truncAtTokenCI "fabric".data n
  let n := truncAtTokenCI "neoforge".data n
  let n := truncAtMcDigit n
  let n := replAllChars ['-'] [' '] n
  let n := replAllChars ['_'] [' '] n
  pyStrip (String.mk n)

/-- Whether a character is in Python's ASCII `\w` (the filenames are ASCII). -/
def isWordCh (c : Char) : Bool := c.isAlphanum || c = '_'

/-- The `[\w.+\-]` class of `version_from_jar`. -/
def isVerTailCh (c : Char) : Bool := isWordCh c || c = '.' || c = '+' || c = '-'

/-- Length of the leading run of `[\w.+\-]` characters. -/
def verTailRun : List Char → Nat
  | [] => 0
  | c :: r => if isVerTailCh c then verTailRun r + 1 else 0

/-- Match `\d+\.\d+[\w.+\-]*` at the head: the whole matched token, or
none.  Greedy matching with no later anchor means the maximal digit runs
and class run are taken. -/
def verTokenAt (l : List Char) : Option (List Char) :=
  let r1 := digitRun l
  if r1 = 0 then none
  else if (l.drop r1).headD ' ' ≠ '.' then none
  else
    let rest2 := l.drop (r1 + 1)
    let r2 := digitRun rest2
    if r2 = 0 then none
    else
      let r3 := verTailRun (rest2.drop r2)
      some (l.take (r1 + 1 + r2 + r3))

/-- `re.search`: try every start position left to right. -/
def findVerToken : List Char → Option (List Char)
  | [] => none
  | c :: rest =>
    match verTokenAt (c :: rest) with
    | some t => some t
    | none => findVerToken rest

/-- `version_from_jar` from `generate_modlist.py`. -/
def versionFromJar (jar : String) : String :=
  let n := replAllChars ".jar".data [] jar.data
  match findVerToken n with
  | some t => String.mk t
  | none => "unknown"

/-- `JAR_NAME_OVERRIDES` from `generate_modlist.py`. -/
def JAR_NAME_OVERRIDES : List (String × (String × String)) := [
  ("[Fabric]ctov-1.21.11-3.6.1a.jar", ("ChoiceTheorem's Overhauled Village", "3.6.1a")),
  ("t_and_t-fabric-neoforge-1.13.8.jar", ("Towns and Towers", "1.13.8")),
  ("NE-1.21.11-1.10.2.jar", ("No Expensive", "1.10.2")),
  ("Origins-Legacy-1.11.4+1.21.11.jar", ("Origins: Legacy", "1.11.4+1.21.11")),
  ("beaconrange-1.4.0-21.jar", ("Beacon Range Extender", "1.4.0")),
  ("Explorify v1.6.4 f15-88.mod.jar", ("Explorify", "1.6.4")),
  ("Incendium_1.21.x_v5.4.10.jar", ("Incendium", "5.4.10")),
  ("Structory_1.21.x_v1.3.14.jar", ("Structory", "1.3.14")),
  ("Structory_Towers_1.21.x_v1.0.15.jar", ("Structory Towers", "1.0.15")),
  ("supermartijn642configlib-1.1.8-fabric-mc1.21.11.jar", ("SuperMartijn642's Config Lib", "1.1.8")),
  ("supermartijn642corelib-1.1.20-fabric-mc1.21.11.jar", ("SuperMartijn642's Core Lib", "1.1.20"))]

/-- The name/version normalization step of `collect_server_mods`: the
override table is consulted first and returns its literal pair
unconditionally; only otherwise do the stripping heuristics run. -/
def normalizeServerJar (jar : String) : String × String :=
  match lookupKV JAR_NAME_OVERRIDES jar with
  | some nv => nv
  | none => (jarToName jar, versionFromJar jar)

example : jarToName "Explorify v1.6.4 f15-88.mod.jar" = "Explorify v1.6.4 f15" := by decide

example : versionFromJar "Explorify v1.6.4 f15-88.mod.jar" = "1.6.4" := by decide

/-- `re.sub(r'[-_]\d+[\d.+a-zA-Z_-]*$', '', name)` from the
`fetch_mod_data.py` `jar_to_name`: truncate at the leftmost
dash/underscore that is followed by a digit and then only characters of
the class up to the end of the string. -/
def truncVerEnd : List Char → List Char
  | [] => []
  | c :: rest =>
    if isDashU c &&
        (match rest with | d :: _ => d.isDigit | [] => false) &&
        rest.all isVerTailCh then []
    else c :: truncVerEnd rest

/-- Length of the leading run of `[\d.]` characters. -/
def digitDotRun : List Char → Nat
  | [] => 0
  | c :: r => if c.isDigit || c = '.' then digitDotRun r + 1 else 0

/-- `re.sub(r'[-_]mc\d+[\d.]*', '', name, flags=I)`: remove every
non-overlapping occurrence, scanning left to right (fuel bounded by the
list length, which suffices since every step consumes at least one
character). -/
def subMcF : Nat → List Char → List Char
  | _, [] => []
  | 0, l => l
  | fuel + 1, c :: rest =>
    if isDashU c &&
        (match rest.map Char.toLower with
         | 'm' :: 'c' :: d :: _ => d.isDigit
         | _ => false) then
      let rest2 := rest.drop 2
      let r := digitRun rest2
      subMcF fuel ((rest2.drop r).drop (digitDotRun (rest2.drop r)))
    else c :: subMcF fuel rest

/-- `re.sub(r'[-_]<token>[-_]?', '-', name, flags=I)` from the
`fetch_mod_data.py` `jar_to_name` (token is `fabric`, `forge` or
`neoforge`). -/
def subTokenF (tok : List Char) : Nat → List Char → List Char
  | _, [] => []
  | 0, l => l
  | fuel + 1, c :: rest =>
    if isDashU c && chHasPre tok (rest.map Char.toLower) then
      let rest2 := rest.drop tok.length
      let rest3 :=
        match rest2 with
        | d :: r2 => if isDashU d then r2 else rest2
        | [] => rest2
      '-' :: subTokenF tok fuel rest3
    else c :: subTokenF tok fuel rest

/-- `re.sub(r'\s+', ' ', name)`. -/
def collapseWsF : Nat → List Char → List Char
  | _, [] => []
  | 0, l => l
  | fuel + 1, c :: rest =>
    if pySpaceChar c then ' ' :: collapseWsF fuel (rest.dropWhile (fun d => pySpaceChar d))
    else c :: collapseWsF fuel rest

/-- Python `str.title()` for ASCII: uppercase a letter that follows a
non-letter, lowercase the other letters. -/
def pyTitleChars : Bool → List Char → List Char
  | _, [] => []
  | prevAlpha, c :: rest =>
    if c.isAlpha then
      (if prevAlpha then c.toLower else c.toUpper) :: pyTitleChars true rest
    else c :: pyTitleChars false rest

/-- `jar_to_name` from `fetch_mod_data.py`. -/
def fetchJarToName (jar : String) : String :=
  let n := replAllChars ".jar".data [] jar.data
  let n := if chHasPre "[Fabric]".data n then n.drop 8 else n
  let n := truncVerEnd n
  let n := subMcF n.length n
  let n := subTokenF "fabric".data n.length n
  let n := subTokenF "forge".data n.length n
  let n := subTokenF "neoforge".data n.length n
  let n := replAllChars ['-'] [' '] n
  let n := replAllChars ['_'] [' '] n
  let n := collapseWsF n.length n
  String.mk (pyTitleChars false (pyStripChars n))

/-- `JAR_NAME_OVERRIDES` from `fetch_mod_data.py` (the fetcher's larger
table). -/
def FETCH_JAR_NAME_OVERRIDES : List (String × (String × String)) := [
  ("[Fabric]ctov-1.21.11-3.6.1a.jar", ("ChoiceTheorem's Overhauled Village", "3.6.1a")),
  ("t_and_t-fabric-neoforge-1.13.8.jar", ("Towns and Towers", "1.13.8")),
  ("NE-1.21.11-1.10.2.jar", ("No Expensive", "1.10.2")),
  ("Origins-Legacy-1.11.4+1.21.11.jar", ("Origins: Legacy", "1.11.4+1.21.11")),
  ("beaconrange-1.4.0-21.jar", ("Beacon Range Extender", "1.4.0")),
  ("Explorify v1.6.4 f15-88.mod.jar", ("Explorify", "1.6.4")),
  ("Incendium_1.21.x_v5.4.10.jar", ("Incendium", "5.4.10")),
  ("Structory_1.21.x_v1.3.14.jar", ("Structory", "1.3.14")),
  ("Structory_Towers_1.21.x_v1.0.15.jar", ("Structory Towers", "1.0.15")),
  ("supermartijn642configlib-1.1.8-fabric-mc1.21.11.jar", ("SuperMartijn642's Config Lib", "1.1.8")),
  ("supermartijn642corelib-1.1.20-fabric-mc1.21.11.jar", ("SuperMartijn642's Core Lib", "1.1.20")),
  ("MoogsEndStructures-1.21-2.0.1.jar", ("Moogs End Structures", "2.0.1")),
  ("MoogsMissingVillages-1.21-2.0.0.jar", ("Moogs Missing Villages", "2.0.0")),
  ("MoogsNetherStructures-1.21-2.0.31.jar", ("Moogs Nether Structures", "2.0.31")),
  ("MoogsSoaringStructures-1.21-2.0.2.jar", ("Moogs Soaring Structures", "2.0.2")),
  ("MoogsTemplesReimagined-1.21-1.1.0.jar", ("Moogs Temples Reimagined", "1.1.0")),
  ("MoogsVoyagerStructures-1.21-5.0.5.jar", ("Moogs Voyager Structures", "5.0.5")),
  ("ForgeConfigAPIPort-v21.11.1-mc1.21.11-Fabric.jar", ("Forge Config API Port", "21.11.1")),
  ("worldedit-mod-7.4.0.jar", ("WorldEdit", "7.4.0")),
  ("AdditionalStructures-1.21-(v.5.2.0-FABRIC)-dev.jar", ("Additional Structures", "5.2.0"))]

/-- The name normalization step of `fetch_mod_data.py` step 2: override
first (its name component), else the fetcher's heuristics. -/
def fetchServerModName (jar : String) : String :=
  match lookupKV FETCH_JAR_NAME_OVERRIDES jar with
  | some nv => nv.1
  | none => fetchJarToName jar

/-- Claim C8: filenames present in the override tables normalize to
exactly the literal configured pair, bypassing the heuristics, in both
entry points; and the `Explorify v1.6.4 f15-88.mod.jar` scenario: with
the override, exactly `("Explorify", "1.6.4")`; without it, the
heuristics strip the trailing `-88.mod` tag and extract a version token
containing `"1.6.4"`. -/
theorem C8_override_normalize :
    (∀ (jar : String) (nv : String × String),
      lookupKV JAR_NAME_OVERRIDES jar = some nv → normalizeServerJar jar = nv) ∧
    (∀ (jar : String) (nv : String × String),
      lookupKV FETCH_JAR_NAME_OVERRIDES jar = some nv → fetchServerModName jar = nv.1) ∧
    normalizeServerJar "Explorify v1.6.4 f15-88.mod.jar" = ("Explorify", "1.6.4") ∧
    jarToName "Explorify v1.6.4 f15-88.mod.jar" = "Explorify v1.6.4 f15" ∧
    versionFromJar "Explorify v1.6.4 f15-88.mod.jar" = "1.6.4" ∧
    pyInStr "1.6.4" (versionFromJar "Explorify v1.6.4 f15-88.mod.jar") = true := by
  refine ⟨?_, ?_, by decide, by decide, by decide, by decide⟩
  · intro jar nv h
    simp [normalizeServerJar, h]
  · intro jar nv h
    simp [fetchServerModName, h]

theorem C8_override_normalize_witness :
    normalizeServerJar "Explorify v1.6.4 f15-88.mod.jar" = ("Explorify", "1.6.4") ∧
    fetchServerModName "worldedit-mod-7.4.0.jar" = "WorldEdit" :=
  ⟨C8_override_normalize.1 "Explorify v1.6.4 f15-88.mod.jar" ("Explorify", "1.6.4") (by decide),
   C8_override_normalize.2.1 "worldedit-mod-7.4.0.jar" ("WorldEdit", "7.4.0") (by decide)⟩

/-! ## Player aggregator post-join stage (`generate_modlist.py`
`collect_players`, lines building the final list) -/

/-- One joined player record (the dict appended per UUID in
`collect_players`; counters are `Int` since they come from JSON). -/
structure Player where
  name : String
  uuid : String
  is_op : Bool
  reg_date : String
  last_login : String
  play_time : Int
  play_time_fmt : String
  deaths : Int
  mob_kills : Int
  distance_walked : Int
  distance_walked_fmt : String
  distance_flown : Int
  distance_flown_fmt : String
  blocks_mined : Int
  items_crafted : Int
  advancements : Int
  damage_dealt : Int
deriving DecidableEq

theorem mem_insertKV {α : Type} (s : List (String × α)) (k k' : String) (v v' : α)
    (h : (k', v') ∈ insertKV s k v) : (k', v') ∈ s ∨ (k' = k ∧ v' = v) := by
  induction s with
  | nil =>
    simp [insertKV] at h
    exact Or.inr ⟨h.1, h.2⟩
  | cons hd t ih =>
    obtain ⟨a, b⟩ := hd
    by_cases ha : a = k
    · simp only [insertKV, if_pos ha] at h
      rcases List.mem_cons.mp h with h1 | h1
      · exact Or.inr ⟨(Prod.mk.injEq _ _ _ _ ▸ h1).1, (Prod.mk.injEq _ _ _ _ ▸ h1).2⟩
      · exact Or.inl (List.mem_cons_of_mem _ h1)
    · simp only [insertKV, if_neg ha] at h
      rcases List.mem_cons.mp h with h1 | h1
      · exact Or.inl (h1 ▸ List.mem_cons_self _ _)
      · rcases ih h1 with h2 | h2
        · exact Or.inl (List.mem_cons_of_mem _ h2)
        · exact Or.inr h2

theorem lookupKV_append_of_some {α : Type} (s t : List (String × α)) (k : String) (v : α)
    (h : lookupKV s k = some v) : lookupKV (s ++ t) k = some v := by
  induction s with
  | nil => simp [lookupKV] at h
  | cons hd r ih =>
    obtain ⟨a, b⟩ := hd
    by_cases ha : a = k
    · simp [lookupKV, ha] at h ⊢
      exact h
    · simp [lookupKV, ha] at h ⊢
      exact ih h

theorem lookupKV_append_of_none {α : Type} (s : List (String × α)) (k : String) (v : α)
    (h : lookupKV s k = none) : lookupKV (s ++ [(k, v)]) k = some v := by
  induction s with
  | nil => simp [lookupKV]
  | cons hd r ih =>
    obtain ⟨a, b⟩ := hd
    by_cases ha : a = k
    · simp [lookupKV, ha] at h
    · simp [lookupKV, ha] at h ⊢
      exact ih h

theorem mem_of_lookupKV_some {α : Type} (s : List (String × α)) (k : String) (v : α)
    (h : lookupKV s k = some v) : (k, v) ∈ s := by
  induction s with
  | nil => simp [lookupKV] at h
  | cons hd r ih =>
    obtain ⟨a, b⟩ := hd
    by_cases ha : a = k
    · simp [lookupKV, ha] at h
      exact h ▸ (ha ▸ List.mem_cons_self _ _)
    · simp [lookupKV, ha] at h
      exact List.mem_cons_of_mem _ (ih h)

theorem lookupKV_eq_none_iff {α : Type} (s : List (String × α)) (k : String) :
    lookupKV s k = none ↔ k ∉ s.map Prod.fst := by
  induction s with
  | nil => simp [lookupKV]
  | cons hd r ih =>
    obtain ⟨a, b⟩ := hd
    by_cases ha : a = k
    · simp [lookupKV, ha]
    · simp [lookupKV, ha, ih, Ne.symm ha]

theorem keys_insertKV_of_some {α : Type} (s : List (String × α)) (k : String) (v v0 : α)
    (h : lookupKV s k = some v0) :
    (insertKV s k v).map Prod.fst = s.map Prod.fst := by
  induction s with
  | nil => simp [lookupKV] at h
  | cons hd r ih =>
    obtain ⟨a, b⟩ := hd
    by_cases ha : a = k
    · simp [insertKV, ha]
    · simp [lookupKV, ha] at h
      simp [insertKV, ha, ih h]

theorem lookupKV_of_mem_nodup {α : Type} (s : List (String × α)) (k : String) (v : α)
    (hnd : (s.map Prod.fst).Nodup) (h : (k, v) ∈ s) : lookupKV s k = some v := by
  induction s with
  | nil => simp at h
  | cons hd r ih =>
    obtain ⟨a, b⟩ := hd
    simp only [List.map_cons, List.nodup_cons] at hnd
    rcases List.mem_cons.mp h with h1 | h1
    · obtain ⟨h1a, h1b⟩ := Prod.mk.injEq _ _ _ _ ▸ h1
      simp [lookupKV, h1a.symm, h1b]
    · have hk : a ≠ k := by
        intro hak
        exact hnd.1 (hak ▸ (List.mem_map.mpr ⟨(k, v), h1, rfl⟩))
      simp [lookupKV, hk]
      exact ih hnd.2 h1

/-- One iteration of the dedup loop of `collect_players`: `seen` is a
dict keyed by `p["name"].lower()`; a new key is appended, an existing key
is replaced only when the new record's playtime is strictly greater. -/
def dedupStep (seen : List (String × Player)) (p : Player) : List (String × Player) :=
  match lookupKV seen (pyLower p.name) with
  | none => seen ++ [(pyLower p.name, p)]
  | some q =>
    if q.play_time < p.play_time then insertKV seen (pyLower p.name) p else seen

/-- The dedup loop over the filtered player list. -/
def dedupFold : List Player → List (String × Player) → List (String × Player)
  | [], seen => seen
  | p :: rest, seen => dedupFold rest (dedupStep seen p)

/-- Stable descending insertion by playtime (Python's stable
`sort(key=..., reverse=True)`). -/
def insDesc (p : Player) : List Player → List Player
  | [] => [p]
  | q :: rest =>
    if q.play_time < p.play_time then p :: q :: rest else q :: insDesc p rest

/-- `players.sort(key=lambda p: p["play_time"], reverse=True)`. -/
def sortByPlaytime (l : List Player) : List Player :=
  l.foldl (fun acc p => insDesc p acc) []

/-- The post-join stage of `collect_players`: drop zero-playtime records
(`players = [p for p in players if p["play_time"] > 0]`). -/
def activePlayers (ps : List Player) : List Player :=
  ps.filter (fun p => decide (0 < p.play_time))

/-- The post-join pipeline (continued): dedup the active records and sort. -/
def collectPlayersPost (ps : List Player) : List Player :=
  sortByPlaytime ((dedupFold (activePlayers ps) []).map Prod.snd)

theorem dedupStep_none (seen : List (String × Player)) (p : Player)
    (h : lookupKV seen (pyLower p.name) = none) :
    dedupStep seen p = seen ++ [(pyLower p.name, p)] := by
  unfold dedupStep
  rw [h]

theorem dedupStep_some_lt (seen : List (String × Player)) (p q : Player)
    (h : lookupKV seen (pyLower p.name) = some q) (hlt : q.play_time < p.play_time) :
    dedupStep seen p = insertKV seen (pyLower p.name) p := by
  unfold dedupStep
  rw [h]
  exact if_pos hlt

theorem dedupStep_some_ge (seen : List (String × Player)) (p q : Player)
    (h : lookupKV seen (pyLower p.name) = some q) (hge : ¬q.play_time < p.play_time) :
    dedupStep seen p = seen := by
  unfold dedupStep
  rw [h]
  exact if_neg hge

theorem mem_dedupStep (seen : List (String × Player)) (p : Player) (kp : String × Player)
    (h : kp ∈ dedupStep seen p) : kp ∈ seen ∨ kp = (pyLower p.name, p) := by
  obtain ⟨k1, p1⟩ := kp
  cases hl : lookupKV seen (pyLower p.name) with
  | none =>
    rw [dedupStep_none seen p hl] at h
    rcases List.mem_append.mp h with h1 | h1
    · exact Or.inl h1
    · simp at h1
      exact Or.inr (by simp [h1.1, h1.2])
  | some q =>
    by_cases hlt : q.play_time < p.play_time
    · rw [dedupStep_some_lt seen p q hl hlt] at h
      rcases mem_insertKV seen (pyLower p.name) k1 p p1 h with h1 | h1
      · exact Or.inl h1
      · exact Or.inr (by simp [h1.1, h1.2])
    · rw [dedupStep_some_ge seen p q hl hlt] at h
      exact Or.inl h

theorem dedupStep_keys_nodup (seen : List (String × Player)) (p : Player)
    (h : (seen.map Prod.fst).Nodup) : ((dedupStep seen p).map Prod.fst).Nodup := by
  cases hl : lookupKV seen (pyLower p.name) with
  | none =>
    rw [dedupStep_none seen p hl, List.map_append]
    simp only [List.map_cons, List.map_nil]
    rw [List.nodup_append]
    refine ⟨h, List.nodup_singleton _, ?_⟩
    intro a ha hb
    simp at hb
    exact (lookupKV_eq_none_iff seen (pyLower p.name)).mp hl (hb ▸ ha)
  | some q =>
    by_cases hlt : q.play_time < p.play_time
    · rw [dedupStep_some_lt seen p q hl hlt,
        keys_insertKV_of_some seen (pyLower p.name) p q hl]
      exact h
    · rw [dedupStep_some_ge seen p q hl hlt]
      exact h

theorem dedupStep_lookup_mono (seen : List (String × Player)) (p : Player) (k : String)
    (p0 : Player) (h : lookupKV seen k = some p0) :
    ∃ p1, lookupKV (dedupStep seen p) k = some p1 ∧ p0.play_time ≤ p1.play_time := by
  cases hl : lookupKV seen (pyLower p.name) with
  | none =>
    rw [dedupStep_none seen p hl]
    exact ⟨p0, lookupKV_append_of_some seen _ k p0 h, le_refl _⟩
  | some q =>
    by_cases hlt : q.play_time < p.play_time
    · rw [dedupStep_some_lt seen p q hl hlt]
      by_cases hk : pyLower p.name = k
      · subst hk
        rw [hl] at h
        injection h with he
        subst he
        exact ⟨p, lookupKV_insertKV_self seen _ p, le_of_lt hlt⟩
      · rw [lookupKV_insertKV_ne seen (pyLower p.name) k p (Ne.symm hk)]
        exact ⟨p0, h, le_refl _⟩
    · rw [dedupStep_some_ge seen p q hl hlt]
      exact ⟨p0, h, le_refl _⟩

theorem dedupStep_lookup_self (seen : List (String × Player)) (p : Player) :
    ∃ p1, lookupKV (dedupStep seen p) (pyLower p.name) = some p1 ∧
      p.play_time ≤ p1.play_time := by
  cases hl : lookupKV seen (pyLower p.name) with
  | none =>
    rw [dedupStep_none seen p hl]
    exact ⟨p, lookupKV_append_of_none seen _ p hl, le_refl _⟩
  | some q =>
    by_cases hlt : q.play_time < p.play_time
    · rw [dedupStep_some_lt seen p q hl hlt]
      exact ⟨p, lookupKV_insertKV_self seen _ p, le_refl _⟩
    · rw [dedupStep_some_ge seen p q hl hlt]
      exact ⟨q, hl, by omega⟩

theorem dedupFold_lookup_mono (l : List Player) :
    ∀ seen k p0, lookupKV seen k = some p0 →
      ∃ p1, lookupKV (dedupFold l seen) k = some p1 ∧ p0.play_time ≤ p1.play_time := by
  induction l with
  | nil => intro seen k p0 h; exact ⟨p0, h, le_refl _⟩
  | cons p rest ih =>
    intro seen k p0 h
    obtain ⟨pm, hm, hle⟩ := dedupStep_lookup_mono seen p k p0 h
    obtain ⟨p1, h1, hle1⟩ := ih (dedupStep seen p) k pm hm
    exact ⟨p1, h1, le_trans hle hle1⟩

theorem dedupFold_nodup (l : List Player) :
    ∀ seen, (seen.map Prod.fst).Nodup → ((dedupFold l seen).map Prod.fst).Nodup := by
  induction l with
  | nil => intro seen h; exact h
  | cons p rest ih =>
    intro seen h
    exact ih (dedupStep seen p) (dedupStep_keys_nodup seen p h)

theorem dedupFold_mem_src (l : List Player) :
    ∀ seen k p, (k, p) ∈ dedupFold l seen → (k, p) ∈ seen ∨ p ∈ l := by
  induction l with
  | nil => intro seen k p h; exact Or.inl h
  | cons p0 rest ih =>
    intro seen k p h
    rcases ih (dedupStep seen p0) k p h with h1 | h1
    · rcases mem_dedupStep seen p0 (k, p) h1 with h2 | h2
      · exact Or.inl h2
      · have : p = p0 := congrArg Prod.snd h2
        exact Or.inr (this ▸ List.mem_cons_self _ _)
    · exact Or.inr (List.mem_cons_of_mem _ h1)

theorem dedupFold_key (l : List Player) :
    ∀ seen, (∀ kp ∈ seen, Prod.fst kp = pyLower (Prod.snd kp).name) →
      ∀ kp ∈ dedupFold l seen, Prod.fst kp = pyLower (Prod.snd kp).name := by
  induction l with
  | nil => intro seen h; exact h
  | cons p0 rest ih =>
    intro seen h
    apply ih
    intro kp hkp
    rcases mem_dedupStep seen p0 kp hkp with h1 | h1
    · exact h kp h1
    · rw [h1]

theorem dedupFold_lookup_max (l : List Player) :
    ∀ seen k p, lookupKV (dedupFold l seen) k = some p →
      ∀ q ∈ l, pyLower q.name = k → q.play_time ≤ p.play_time := by
  induction l with
  | nil => intro seen k p _ q hq; cases hq
  | cons q0 rest ih =>
    intro seen k p hfinal q hq hkey
    have hfold : dedupFold (q0 :: rest) seen = dedupFold rest (dedupStep seen q0) := rfl
    rw [hfold] at hfinal
    rcases List.mem_cons.mp hq with h1 | h1
    · subst h1
      subst hkey
      obtain ⟨pm, hm, hle⟩ := dedupStep_lookup_self seen q
      obtain ⟨p1, h1, hle1⟩ := dedupFold_lookup_mono rest (dedupStep seen q) _ pm hm
      rw [hfinal] at h1
      injection h1 with he
      subst he
      exact le_trans hle hle1
    · exact ih (dedupStep seen q0) k p hfinal q h1 hkey

theorem dedupFold_covers (l : List Player) :
    ∀ seen q, q ∈ l →
      ∃ p, lookupKV (dedupFold l seen) (pyLower q.name) = some p := by
  induction l with
  | nil => intro seen q hq; cases hq
  | cons q0 rest ih =>
    intro seen q hq
    rcases List.mem_cons.mp hq with h1 | h1
    · subst h1
      obtain ⟨pm, hm, _⟩ := dedupStep_lookup_self seen q
      obtain ⟨p1, h1, _⟩ := dedupFold_lookup_mono rest (dedupStep seen q) _ pm hm
      exact ⟨p1, h1⟩
    · exact ih (dedupStep seen q0) q h1

theorem mem_insDesc (p x : Player) (l : List Player) :
    x ∈ insDesc p l ↔ x = p ∨ x ∈ l := by
  induction l with
  | nil => simp [insDesc]
  | cons q rest ih =>
    by_cases hgt : q.play_time < p.play_time
    · simp only [insDesc, if_pos hgt, List.mem_cons]
    · simp only [insDesc, if_neg hgt, List.mem_cons, ih]
      tauto

theorem mem_sortByPlaytime_aux (l : List Player) :
    ∀ acc x, x ∈ l.foldl (fun a p => insDesc p a) acc ↔ x ∈ acc ∨ x ∈ l := by
  induction l with
  | nil =>
    intro acc x
    simp
  | cons p rest ih =>
    intro acc x
    simp only [List.foldl_cons]
    rw [ih (insDesc p acc) x, mem_insDesc]
    simp only [List.mem_cons]
    tauto

theorem mem_sortByPlaytime (l : List Player) (x : Player) :
    x ∈ sortByPlaytime l ↔ x ∈ l := by
  rw [sortByPlaytime, mem_sortByPlaytime_aux]
  simp

theorem mem_post_iff (ps : List Player) (p : Player) :
    p ∈ collectPlayersPost ps ↔ ∃ k, (k, p) ∈ dedupFold (activePlayers ps) [] := by
  unfold collectPlayersPost
  rw [mem_sortByPlaytime]
  constructor
  · intro h
    obtain ⟨kp, hkp, he⟩ := List.mem_map.mp h
    exact ⟨kp.1, by rw [show (kp.1, p) = kp from by rw [← he]]; exact hkp⟩
  · intro ⟨k, hk⟩
    exact List.mem_map.mpr ⟨(k, p), hk, rfl⟩

/-- Example input records for the dedup scenario: same display name up to
case, playtimes 10 and 50. -/
def playerSteve10 : Player :=
  ⟨"Steve", "uuid-a", false, "", "", 10, "", 0, 0, 0, "", 0, "", 0, 0, 0, 0⟩

/-- The playtime-50 record that must win the dedup. -/
def playerSteve50 : Player :=
  ⟨"steve", "uuid-b", false, "", "", 50, "", 0, 0, 0, "", 0, "", 0, 0, 0, 0⟩

/-- Claim C9: the aggregator drops zero-playtime records, and among the
rest it keeps, per case-insensitive display name, exactly one input
record — one with maximal playtime — discarding the others entirely (no
merging); with playtimes 10 and 50 under one name, only the 50 record
survives. -/
theorem C9_player_dedup :
    (∀ (ps : List Player) (p : Player), p ∈ collectPlayersPost ps →
      0 < p.play_time ∧ p ∈ ps) ∧
    (∀ (ps : List Player) (p q : Player), p ∈ collectPlayersPost ps → q ∈ ps →
      pyLower q.name = pyLower p.name → q.play_time ≤ p.play_time) ∧
    (∀ (ps : List Player) (q : Player), q ∈ ps → 0 < q.play_time →
      ∃ p ∈ collectPlayersPost ps, pyLower p.name = pyLower q.name) ∧
    (∀ (ps : List Player) (p1 p2 : Player), p1 ∈ collectPlayersPost ps →
      p2 ∈ collectPlayersPost ps → pyLower p1.name = pyLower p2.name → p1 = p2) ∧
    collectPlayersPost [playerSteve10, playerSteve50] = [playerSteve50] := by
  have hbase : (([] : List (String × Player)).map Prod.fst).Nodup := by simp
  have hkeys : ∀ kp ∈ ([] : List (String × Player)),
      Prod.fst kp = pyLower (Prod.snd kp).name := by simp
  refine ⟨?_, ?_, ?_, ?_, by decide⟩
  · intro ps p hp
    obtain ⟨k, hk⟩ := (mem_post_iff ps p).mp hp
    rcases dedupFold_mem_src (activePlayers ps) [] k p hk with h1 | h1
    · cases h1
    · obtain ⟨hmem, hpos⟩ := List.mem_filter.mp h1
      exact ⟨by simpa using hpos, hmem⟩
  · intro ps p q hp hq hkey
    obtain ⟨k, hk⟩ := (mem_post_iff ps p).mp hp
    have hkp : k = pyLower p.name :=
      dedupFold_key (activePlayers ps) [] hkeys (k, p) hk
    have hnd := dedupFold_nodup (activePlayers ps) [] hbase
    have hlook := lookupKV_of_mem_nodup _ k p hnd hk
    by_cases hq0 : 0 < q.play_time
    · have hqa : q ∈ activePlayers ps := List.mem_filter.mpr ⟨hq, by simpa using hq0⟩
      exact dedupFold_lookup_max (activePlayers ps) [] k p hlook q hqa
        (by rw [hkey, ← hkp])
    · have hp0 : 0 < p.play_time := by
        rcases dedupFold_mem_src (activePlayers ps) [] k p hk with h1 | h1
        · cases h1
        · simpa using (List.mem_filter.mp h1).2
      omega
  · intro ps q hq hq0
    have hqa : q ∈ activePlayers ps := List.mem_filter.mpr ⟨hq, by simpa using hq0⟩
    obtain ⟨p, hp⟩ := dedupFold_covers (activePlayers ps) [] q hqa
    have hmem := mem_of_lookupKV_some _ _ _ hp
    have hkey : pyLower q.name = pyLower p.name :=
      dedupFold_key (activePlayers ps) [] hkeys (pyLower q.name, p) hmem
    exact ⟨p, (mem_post_iff ps p).mpr ⟨pyLower q.name, hmem⟩, hkey.symm⟩
  · intro ps p1 p2 hp1 hp2 hkey
    obtain ⟨k1, hk1⟩ := (mem_post_iff ps p1).mp hp1
    obtain ⟨k2, hk2⟩ := (mem_post_iff ps p2).mp hp2
    have hkp1 : k1 = pyLower p1.name :=
      dedupFold_key (activePlayers ps) [] hkeys (k1, p1) hk1
    have hkp2 : k2 = pyLower p2.name :=
      dedupFold_key (activePlayers ps) [] hkeys (k2, p2) hk2
    have hnd := dedupFold_nodup (activePlayers ps) [] hbase
    have h1 := lookupKV_of_mem_nodup _ k1 p1 hnd hk1
    have h2 := lookupKV_of_mem_nodup _ k2 p2 hnd hk2
    rw [hkp1, hkey, ← hkp2] at h1
    rw [h2] at h1
    injection h1 with he
    exact he.symm

theorem C9_player_dedup_witness :
    (0 < playerSteve50.play_time ∧ playerSteve50 ∈ [playerSteve10, playerSteve50]) ∧
    playerSteve10.play_time ≤ playerSteve50.play_time ∧
    (∃ p ∈ collectPlayersPost [playerSteve10, playerSteve50],
      pyLower p.name = pyLower playerSteve10.name) :=
  ⟨C9_player_dedup.1 [playerSteve10, playerSteve50] playerSteve50 (by decide),
   C9_player_dedup.2.1 [playerSteve10, playerSteve50] playerSteve50 playerSteve10
     (by decide) (by decide) (by decide),
   C9_player_dedup.2.2.1 [playerSteve10, playerSteve50] playerSteve10
     (by decide) (by decide)⟩

/-! ## Generate-side resolver (`generate_modlist.py`: `_ollama_available`,
`ai_get_mod_info`, and the per-jar record construction of
`collect_client_mods` / `collect_server_mods`) -/

/-- A knowledge-base / AI info dict as the generator consumes it:
`desc` is always present (checked for AI results, always set in the
static table); the other fields are read with `.get`. -/
structure AIInfo where
  desc : String
  side : Option String
  req : Option String
  guide_section : Option String
  guide_name : Option String
  guide_body : Option String
  guide_example : Option String
deriving DecidableEq

/-- Outcome of one `query_ollama` call as `ai_get_mod_info` sees it:
a falsy/failed response, a response whose body is not valid JSON, or a
parsed JSON object (field values modelled as strings; extra keys a model
might return do not influence any claim). -/
inductive AiResp where
  | fail
  | badJson
  | obj (desc side req guide_section guide_name guide_body guide_example : Option String)
deriving DecidableEq

/-- Result of `ai_get_mod_info`: the returned info, whether a generative
query was issued, and the `mods` part of the cache afterwards. -/
structure AiOut where
  result : Option AIInfo
  queried : Bool
  cacheMods : List (String × AIInfo)
deriving DecidableEq

/-- The `valid_sections` set of `ai_get_mod_info`. -/
def VALID_SECTIONS : List String :=
  ["first-join", "gameplay", "travel", "world-gen", "ui", "datapacks", "behind-scenes"]

/-- `_ollama_available` from `generate_modlist.py`, as a function of the
model names the service lists: true iff at least one model is listed
(the configured model name is not consulted). -/
def genOllamaAvailable (models : List String) : Bool := decide (0 < models.length)

/-- Python `model.split(":")[0]`: the text before the first colon. -/
def headBeforeColon : List Char → List Char
  | [] => []
  | c :: cs => if c = ':' then [] else c :: headBeforeColon cs

/-- The configured model's base name, tolerant of tag suffixes. -/
def modelBaseName (model : String) : String := String.mk (headBeforeColon model.data)

/-- `_ollama_available` from `fetch_mod_data.py`: true iff the base name
of the configured model (text before the first `:`) occurs as a
substring of some listed model name. -/
def fetchOllamaAvailable (models : List String) (model : String) : Bool :=
  let base := modelBaseName model
  models.any (fun m => pyInStr base m)

/-- `ai_get_mod_info` from `generate_modlist.py`: cache hit returns the
cached dict with no network traffic; otherwise the availability gate,
the query, the field-presence check (`desc`, `side`, `req`), the enum
coercions and the guide-section sanitisation, then the cache write. -/
def aiGetModInfo (cacheMods : List (String × AIInfo)) (avail : Bool) (resp : AiResp)
    (name _jar hint : String) : AiOut :=
  let key := pyStrip (pyLower name)
  match lookupKV cacheMods key with
  | some v => ⟨some v, false, cacheMods⟩
  | none =>
    if avail = false then ⟨none, false, cacheMods⟩
    else
      match resp with
      | .fail => ⟨none, true, cacheMods⟩
      | .badJson => ⟨none, true, cacheMods⟩
      | .obj d sd rq gs gn gb ge =>
        match d, sd, rq with
        | some ds, some sv0, some rv0 =>
          let sv := if sv0 = "client" ∨ sv0 = "server" ∨ sv0 = "both" then sv0
            else if hint ≠ "unknown" then hint else "both"
          let rv := if rv0 = "required" ∨ rv0 = "optional" ∨ rv0 = "library" then rv0
            else "optional"
          let gs2 := match gs with
            | some g => if g ∈ VALID_SECTIONS then some g else none
            | none => none
          let info : AIInfo := ⟨ds, some sv, some rv, gs2, gn, gb, ge⟩
          ⟨some info, true, insertKV cacheMods key info⟩
        | _, _, _ => ⟨none, true, cacheMods⟩

/-- One emitted mod entry of `collect_client_mods` / `collect_server_mods`. -/
structure GenEntry where
  name : String
  version : String
  jar : String
  desc : String
  side : String
  req : String
  ai_guide_section : Option String
  ai_guide_name : Option String
  ai_guide_body : Option String
  ai_guide_example : Option String
deriving DecidableEq

/-- The per-jar record construction of `collect_client_mods` after the
tier chain has produced `info` (static table, fuzzy match or AI — they
all flow through this same value, so quantifying over `info` covers every
tier): defaults for a missing result, then the side coercion
`server → both`, anything outside `{client, both}` → `client`. -/
def clientModRecord (name version jar : String) (info : Option AIInfo) : GenEntry :=
  let desc := match info with | some i => i.desc | none => ""
  let side0 := match info with | some i => i.side.getD "client" | none => "client"
  let req := match info with | some i => i.req.getD "unknown" | none => "unknown"
  let side := if side0 = "server" then "both"
    else if side0 = "client" ∨ side0 = "both" then side0
    else "client"
  ⟨name, version, jar, desc, side, req,
    (info.map (fun i => i.guide_section)).getD none,
    (info.map (fun i => i.guide_name)).getD none,
    (info.map (fun i => i.guide_body)).getD none,
    (info.map (fun i => i.guide_example)).getD none⟩

/-- The symmetric construction of `collect_server_mods`: defaults to the
`server` side, then the coercion `client → both`, anything outside
`{server, both}` → `server`. -/
def serverModRecord (name version jar : String) (info : Option AIInfo) : GenEntry :=
  let desc := match info with | some i => i.desc | none => ""
  let side0 := match info with | some i => i.side.getD "server" | none => "server"
  let req := match info with | some i => i.req.getD "unknown" | none => "unknown"
  let side := if side0 = "client" then "both"
    else if side0 = "server" ∨ side0 = "both" then side0
    else "server"
  ⟨name, version, jar, desc, side, req,
    (info.map (fun i => i.guide_section)).getD none,
    (info.map (fun i => i.guide_name)).getD none,
    (info.map (fun i => i.guide_body)).getD none,
    (info.map (fun i => i.guide_example)).getD none⟩

/-! ## Fetcher pipeline (`fetch_mod_data.py` `main`, steps 3–4 for mods) -/

/-- A Modrinth project response as `_extract_modrinth_info` reads it:
every field is read with `.get` and a default except `id`, which the
batch dict comprehension indexes directly (modelled total). -/
structure Project where
  id : String
  slug : Option String
  title : Option String
  description : Option String
  client_side : Option String
  server_side : Option String
  categories : Option (List String)
  additional_categories : Option (List String)
  icon_url : Option String
  source_url : Option String
  wiki_url : Option String
  issues_url : Option String
deriving DecidableEq

/-- A search hit: `slug`/`title` are read with `.get(..., "")`;
`project_id` is indexed directly on the selected hit (modelled total). -/
structure Hit where
  slug : Option String
  title : Option String
  project_id : String
deriving DecidableEq

/-- One scanned mod of steps 1–2: display name, jar filename, Modrinth id
(empty when absent) and installation side. -/
structure ModScan where
  name : String
  jar : String
  mid : String
  side : String
deriving DecidableEq

/-- A parsed Ollama JSON response for a mod (extra keys a model might
return are not modelled; no claim reads them). -/
structure RawOllama where
  desc : Option String
  side : Option String
  req : Option String
deriving DecidableEq

/-- The record stored in `data["mods"]` (`mod_data.json`): the union of
the fields the three producing tiers write.  `jarField`/`sideHintField`
are the `_jar`/`_side_hint` keys. -/
structure ModRecord where
  modrinth_id : String
  slug : String
  title : String
  desc : String
  side : String
  req : String
  categories : List String
  icon_url : String
  source_url : String
  wiki_url : String
  issues_url : String
  source : String
  jarField : String
  sideHintField : String
deriving DecidableEq

/-- A record with only title/desc/side/req/source set (the shape of the
manual, Ollama and placeholder records). -/
def baseRecord (title desc side req source : String) : ModRecord :=
  ⟨"", "", title, desc, side, req, [], "", "", "", "", source, "", ""⟩

/-- `name.lower().strip()`, the store key. -/
def pyKey (name : String) : String := pyStrip (pyLower name)

/-- `MODRINTH_SLUG_MAP` from `fetch_mod_data.py`. -/
def MODRINTH_SLUG_MAP : List (String × String) := [
  ("choicetheorem's overhauled village", "ct-overhaul-village"),
  ("towns and towers", "towns-and-towers"),
  ("no expensive", "no-expensive"),
  ("beacon range extender", "beacon-range-extender"),
  ("forge config api port", "forge-config-api-port"),
  ("moogs end structures", "mes-moogs-end-structures"),
  ("moogs missing villages", "mmv-moogs-missing-villages"),
  ("moogs nether structures", "mns-moogs-nether-structures"),
  ("moogs soaring structures", "mss-moogs-soaring-structures"),
  ("moogs temples reimagined", "mtr-moogs-temples-reimagined"),
  ("moogs voyager structures", "moogs-voyager-structures"),
  ("moogs structure lib", "moogs-structure-lib"),
  ("worldedit", "worldedit"),
  ("worldedit mod", "worldedit"),
  ("additional structures", "additional-structures"),
  ("c2me", "c2me-fabric")]

/-- The single entry of `MANUAL_MOD_INFO`. -/
def manualAbridged : ModRecord :=
  baseRecord "Abridged" "Shortens & cleans up server join/leave messages" "server" "optional" "manual"

/-- `_extract_modrinth_info` from `fetch_mod_data.py`. -/
def extractModrinthInfo (p : Project) : ModRecord :=
  let client := p.client_side.getD "unknown"
  let server := p.server_side.getD "unknown"
  let side :=
    if (client = "required" ∨ client = "optional") ∧
        (server = "required" ∨ server = "optional") then "both"
    else if client = "required" ∨ client = "optional" then "client"
    else if server = "required" ∨ server = "optional" then "server"
    else "both"
  let cats := (p.categories.getD []).map pyLower ++ (p.additional_categories.getD []).map pyLower
  let req := if "library" ∈ cats ∨ "api" ∈ cats then "library" else "optional"
  ⟨p.id, p.slug.getD "", p.title.getD "", p.description.getD "", side, req, cats,
    p.icon_url.getD "", p.source_url.getD "", p.wiki_url.getD "", p.issues_url.getD "",
    "modrinth", "", ""⟩

/-- `info["_jar"] = jar; info["_side_hint"] = side`. -/
def withScan (r : ModRecord) (jar side : String) : ModRecord :=
  { r with jarField := jar, sideHintField := side }

/-- `ollama_mod_info` from `fetch_mod_data.py` given the (parsed) query
response: `None` on failure or missing `desc`, else the validated record
with `title` set to the name and `source` `"ollama"`. -/
def ollamaModInfo (name _jar hint : String) (resp : Option RawOllama) : Option ModRecord :=
  match resp with
  | none => none
  | some d =>
    match d.desc with
    | none => none
    | some ds =>
      let sv := match d.side with
        | some x => if x = "client" ∨ x = "server" ∨ x = "both" then x
            else if hint ≠ "unknown" then hint else "both"
        | none => if hint ≠ "unknown" then hint else "both"
      let rv := match d.req with
        | some x => if x = "required" ∨ x = "optional" ∨ x = "library" then x else "optional"
        | none => "optional"
      some (baseRecord name ds sv rv "ollama")

/-- The terminal placeholder written when Ollama also fails. -/
def placeholderRecord (name side : String) : ModRecord :=
  baseRecord name "" side "unknown" "unknown"

/-- The environment of one fetcher run: the scanned mod lists of steps
1–2 and deterministic oracles for the external services (the same
response to the same request within and across the runs being compared). -/
structure FetchEnv where
  clientMods : List ModScan
  serverMods : List ModScan
  batchOracle : List String → Option (List Project)
  projectOracle : String → Option Project
  searchOracle : String → Option (List Hit)
  ollamaOracle : String → String → String → Option RawOllama
  hasOllama : Bool

/-- The persisted `data["mods"]` store. -/
abbrev Store := List (String × ModRecord)

/-- The manual-override loop of step 3 (its one entry). -/
def applyManual (mods : Store) : Store :=
  if (lookupKV mods "abridged").isNone then insertKV mods "abridged" manualAbridged else mods

/-- `modrinth_ids = [mid for _, _, mid, _ in client_mods if mid]`. -/
def batchIds (env : FetchEnv) : List String :=
  (env.clientMods.filter (fun m => m.mid ≠ "")).map (fun m => m.mid)

/-- `id_to_project = {p["id"]: p for p in projects}` (empty on a falsy
response). -/
def idProjects (env : FetchEnv) : List (String × Project) :=
  ((env.batchOracle (batchIds env)).getD []).foldl (fun d p => insertKV d p.id p) []

/-- The per-client-mod loop of step 3a: an unconditional overwrite for
every mod whose id is in the batch response. -/
def batchFold (idp : List (String × Project)) : List ModScan → Store → Store
  | [], mods => mods
  | m :: rest, mods =>
    let mods2 :=
      if m.mid ≠ "" then
        match lookupKV idp m.mid with
        | some p => insertKV mods (pyKey m.name) (withScan (extractModrinthInfo p) m.jar m.side)
        | none => mods
      else mods
    batchFold idp rest mods2

/-- Step 3a, gated on `if modrinth_ids:`. -/
def applyBatch (env : FetchEnv) (mods : Store) : Store :=
  if batchIds env = [] then mods
  else batchFold (idProjects env) env.clientMods mods

/-- `name_lower = name.lower().replace(" ", "").replace("'", "")`. -/
def nameLowerNorm (name : String) : String :=
  pyReplaceAll (pyReplaceAll (pyLower name) " " "") "'" ""

/-- `slug_h = hit.get("slug", "").lower().replace("-", "")`. -/
def hitSlugNorm (h : Hit) : String := pyReplaceAll (pyLower (h.slug.getD "")) "-" ""

/-- First-pass title normalization (spaces and apostrophes stripped). -/
def hitTitleNorm1 (h : Hit) : String :=
  pyReplaceAll (pyReplaceAll (pyLower (h.title.getD "")) " " "") "'" ""

/-- Second-pass title normalization (only spaces stripped). -/
def hitTitleNorm2 (h : Hit) : String := pyReplaceAll (pyLower (h.title.getD "")) " " ""

/-- Python `str.split()` (whitespace runs, no empty pieces). -/
def splitWsF : Nat → List Char → List (List Char)
  | _, [] => []
  | 0, _ => []
  | fuel + 1, l =>
    let l1 := l.dropWhile (fun c => pySpaceChar c)
    match l1 with
    | [] => []
    | _ :: _ =>
      let w := l1.takeWhile (fun c => !pySpaceChar c)
      w :: splitWsF fuel (l1.drop w.length)

/-- Python `s.split()`. -/
def pySplitWs (s : String) : List String :=
  (splitWsF (s.data.length + 1) s.data).map String.mk

/-- The first best-hit pass: exact slug/title match after normalization,
or substring containment either way; first hit wins. -/
def bestHitPass1 (nl : String) : List Hit → Option Hit
  | [] => none
  | h :: rest =>
    if hitSlugNorm h = nl ∨ hitTitleNorm1 h = nl ∨
        pyInStr nl (hitTitleNorm1 h) ∨ pyInStr (hitTitleNorm1 h) nl then some h
    else bestHitPass1 nl rest

/-- The second pass: at least two whitespace-delimited words of the
normalized name each contained in the hit's title or slug.  (`nl` has had
its spaces removed already, so with space-separated names this pass can
never fire — modelled faithfully.) -/
def bestHitPass2 (nl : String) : List Hit → Option Hit
  | [] => none
  | h :: rest =>
    let words := pySplitWs (pyReplaceAll nl "'" "")
    if 2 ≤ words.length ∧
        (words.take 2).all (fun w => pyInStr w (hitTitleNorm2 h) || pyInStr w (hitSlugNorm h))
    then some h
    else bestHitPass2 nl rest

/-- Best-hit selection over the search results. -/
def bestHit (name : String) (hits : List Hit) : Option Hit :=
  let nl := nameLowerNorm name
  match bestHitPass1 nl hits with
  | some h => some h
  | none => bestHitPass2 nl hits

/-- The record the search tier would store for one mod, or `none`: a
falsy/ empty search response, no best hit, or a failed detail fetch all
yield nothing. -/
def searchStepVal (env : FetchEnv) (name jar side : String) : Option ModRecord :=
  match env.searchOracle name with
  | none => none
  | some hits =>
    if hits = [] then none
    else
      match bestHit name hits with
      | none => none
      | some h =>
        match env.projectOracle h.project_id with
        | some p => some (withScan (extractModrinthInfo p) jar side)
        | none => none

/-- The record the whole 3b body would store for one missing mod: slug
tier first (falling through to search when the slug fetch fails), then
the search tier. -/
def itemResult (env : FetchEnv) (name jar side : String) : Option ModRecord :=
  match lookupKV MODRINTH_SLUG_MAP (pyKey name) with
  | some slug =>
    match env.projectOracle slug with
    | some p => some (withScan (extractModrinthInfo p) jar side)
    | none => searchStepVal env name jar side
  | none => searchStepVal env name jar side

/-- Result of the 3b loop: the store and the keys for which slug-tier and
search-tier requests were issued. -/
structure SearchOut where
  mods : Store
  slugQ : List String
  searchQ : List String

/-- One 3b iteration for a mod not yet in the store: try the slug tier
(logging its request), fall through to the search tier (logging its
request) unless the slug fetch succeeded. -/
def searchItem (env : FetchEnv) (name jar side : String) (mods : Store) :
    Store × List String × List String :=
  let key := pyKey name
  match lookupKV MODRINTH_SLUG_MAP key with
  | some slug =>
    match env.projectOracle slug with
    | some p => (insertKV mods key (withScan (extractModrinthInfo p) jar side), [key], [])
    | none =>
      match searchStepVal env name jar side with
      | some r => (insertKV mods key r, [key], [key])
      | none => (mods, [key], [key])
  | none =>
    match searchStepVal env name jar side with
    | some r => (insertKV mods key r, [], [key])
    | none => (mods, [], [key])

/-- The 3b loop over the snapshot `missing` list, with the in-loop
`if key in data["mods"]: continue` recheck. -/
def searchFold (env : FetchEnv) : List (String × String × String) → Store → SearchOut
  | [], mods => ⟨mods, [], []⟩
  | (name, jar, side) :: rest, mods =>
    if (lookupKV mods (pyKey name)).isSome then searchFold env rest mods
    else
      let st := searchItem env name jar side mods
      let out := searchFold env rest st.1
      ⟨out.mods, st.2.1 ++ out.slugQ, st.2.2 ++ out.searchQ⟩

/-- What step 4 stores for one still-missing mod: the Ollama record, or
the terminal placeholder when the query fails. -/
def ollamaWrite (env : FetchEnv) (name jar side : String) : ModRecord :=
  match ollamaModInfo name jar side (env.ollamaOracle name jar side) with
  | some r => r
  | none => placeholderRecord name side

/-- Result of the step 4 loop: the store and the keys queried. -/
structure OllamaOut where
  mods : Store
  ollamaQ : List String

/-- The step 4 loop: every listed mod is queried unconditionally and its
key written (no recheck in the source). -/
def ollamaFold (env : FetchEnv) : List (String × String × String) → Store → OllamaOut
  | [], mods => ⟨mods, []⟩
  | (name, jar, side) :: rest, mods =>
    let out := ollamaFold env rest (insertKV mods (pyKey name) (ollamaWrite env name jar side))
    ⟨out.mods, pyKey name :: out.ollamaQ⟩

/-- The `missing`/`still_missing` snapshot over a given scan list. -/
def missingOfList (mods : Store) : List ModScan → List (String × String × String)
  | [] => []
  | m :: rest =>
    if (lookupKV mods (pyKey m.name)).isNone then
      (m.name, m.jar, m.side) :: missingOfList mods rest
    else missingOfList mods rest

/-- `[(n, j, s) for n, j, mid, s in all_mods if key not in data["mods"]]`. -/
def missingOf (env : FetchEnv) (mods : Store) : List (String × String × String) :=
  missingOfList mods (env.clientMods ++ env.serverMods)

/-- Result of the mods part of one fetcher run. -/
structure RunOut where
  mods : Store
  slugQ : List String
  searchQ : List String
  ollamaQ : List String

/-- Steps 3–4 of `fetch_mod_data.py` `main` restricted to mods: manual
overrides, batch fetch, slug/search tiers over the `missing` snapshot,
then the Ollama tier over the `still_missing` snapshot when available. -/
def runMods (env : FetchEnv) (mods0 : Store) : RunOut :=
  let s1 := applyManual mods0
  let s2 := applyBatch env s1
  let so := searchFold env (missingOf env s2) s2
  let oo := if env.hasOllama then ollamaFold env (missingOf env so.mods) so.mods
    else ⟨so.mods, []⟩
  ⟨oo.mods, so.slugQ, so.searchQ, oo.ollamaQ⟩

/-- The value the batch tier forces at a key it claims (the extract of
the last claiming client mod's project), `none` when the batch tier does
not claim the key. -/
def lastClaimVal (idp : List (String × Project)) : List ModScan → String → Option ModRecord
  | [], _ => none
  | m :: rest, k =>
    match lastClaimVal idp rest k with
    | some v => some v
    | none =>
      if m.mid ≠ "" ∧ pyKey m.name = k then
        match lookupKV idp m.mid with
        | some p => some (withScan (extractModrinthInfo p) m.jar m.side)
        | none => none
      else none

/-- Whether (and with what record) the batch tier claims a key. -/
def batchClaimVal (env : FetchEnv) (k : String) : Option ModRecord :=
  if batchIds env = [] then none
  else lastClaimVal (idProjects env) env.clientMods k

/-- The record the 3b tiers would produce for a key over a scan list
(first mod with that key whose slug/search tiers succeed). -/
def firstResolveAll (env : FetchEnv) : List ModScan → String → Option ModRecord
  | [], _ => none
  | m :: rest, k =>
    if pyKey m.name = k then
      match itemResult env m.name m.jar m.side with
      | some r => some r
      | none => firstResolveAll env rest k
    else firstResolveAll env rest k

/-- Same, over an already-filtered `missing` list. -/
def firstResolveVal (env : FetchEnv) : List (String × String × String) → String → Option ModRecord
  | [], _ => none
  | (name, jar, side) :: rest, k =>
    if pyKey name = k then
      match itemResult env name jar side with
      | some r => some r
      | none => firstResolveVal env rest k
    else firstResolveVal env rest k

/-- The value the step 4 loop leaves at a key (the write of the last
listed item with that key). -/
def lastWriteVal (env : FetchEnv) : List (String × String × String) → String → Option ModRecord
  | [], _ => none
  | (name, jar, side) :: rest, k =>
    match lastWriteVal env rest k with
    | some v => some v
    | none => if pyKey name = k then some (ollamaWrite env name jar side) else none

theorem applyManual_lookup (mods : Store) (k : String) :
    lookupKV (applyManual mods) k =
      match lookupKV mods k with
      | some v => some v
      | none => if k = "abridged" then some manualAbridged else none := by
  unfold applyManual
  by_cases ha : (lookupKV mods "abridged").isNone
  · rw [if_pos ha]
    by_cases hk : k = "abridged"
    · subst hk
      rw [Option.isNone_iff_eq_none] at ha
      rw [lookupKV_insertKV_self, ha]
      rfl
    · rw [lookupKV_insertKV_ne mods "abridged" k manualAbridged hk]
      cases hl : lookupKV mods k with
      | some v => rfl
      | none => simp [hk]
  · rw [if_neg ha]
    cases hl : lookupKV mods k with
    | some v => rfl
    | none =>
      by_cases hk : k = "abridged"
      · subst hk
        rw [hl] at ha
        simp at ha
      · simp [hk]

theorem batchFold_lookup (idp : List (String × Project)) (l : List ModScan) :
    ∀ (mods : Store) (k : String),
      lookupKV (batchFold idp l mods) k =
        match lastClaimVal idp l k with
        | some v => some v
        | none => lookupKV mods k := by
  induction l with
  | nil => intro mods k; rfl
  | cons m rest ih =>
    intro mods k
    simp only [batchFold]
    rw [ih]
    cases hrest : lastClaimVal idp rest k with
    | some v => simp only [lastClaimVal, hrest]
    | none =>
      simp only [lastClaimVal, hrest]
      by_cases hm : m.mid ≠ ""
      · rw [if_pos hm]
        cases hp : lookupKV idp m.mid with
        | some p =>
          by_cases hk : pyKey m.name = k
          · rw [if_pos ⟨hm, hk⟩]
            show lookupKV
                (insertKV mods (pyKey m.name) (withScan (extractModrinthInfo p) m.jar m.side)) k =
              some (withScan (extractModrinthInfo p) m.jar m.side)
            rw [hk]
            exact lookupKV_insertKV_self mods k _
          · rw [if_neg (fun h => hk h.2)]
            show lookupKV
                (insertKV mods (pyKey m.name) (withScan (extractModrinthInfo p) m.jar m.side)) k =
              lookupKV mods k
            exact lookupKV_insertKV_ne mods (pyKey m.name) k _ (fun h => hk h.symm)
        | none =>
          by_cases hk : pyKey m.name = k
          · rw [if_pos ⟨hm, hk⟩]
          · rw [if_neg (fun h => hk h.2)]
      · rw [if_neg hm, if_neg (fun h => hm h.1)]

theorem applyBatch_lookup (env : FetchEnv) (mods : Store) (k : String) :
    lookupKV (applyBatch env mods) k =
      match batchClaimVal env k with
      | some v => some v
      | none => lookupKV mods k := by
  unfold applyBatch batchClaimVal
  by_cases h : batchIds env = []
  · simp [h]
  · simp only [if_neg h]
    exact batchFold_lookup (idProjects env) env.clientMods mods k

theorem searchItem_mods (env : FetchEnv) (name jar side : String) (mods : Store) :
    (searchItem env name jar side mods).1 =
      match itemResult env name jar side with
      | some r => insertKV mods (pyKey name) r
      | none => mods := by
  cases h1 : lookupKV MODRINTH_SLUG_MAP (pyKey name) with
  | some slug =>
    cases h2 : env.projectOracle slug with
    | some p => simp [searchItem, itemResult, h1, h2]
    | none =>
      cases h3 : searchStepVal env name jar side with
      | some r => simp [searchItem, itemResult, h1, h2, h3]
      | none => simp [searchItem, itemResult, h1, h2, h3]
  | none =>
    cases h3 : searchStepVal env name jar side with
    | some r => simp [searchItem, itemResult, h1, h3]
    | none => simp [searchItem, itemResult, h1, h3]

theorem searchItem_slugQ (env : FetchEnv) (name jar side : String) (mods : Store) :
    ∀ x ∈ (searchItem env name jar side mods).2.1, x = pyKey name := by
  cases h1 : lookupKV MODRINTH_SLUG_MAP (pyKey name) with
  | some slug =>
    cases h2 : env.projectOracle slug with
    | some p => simp [searchItem, h1, h2]
    | none =>
      cases h3 : searchStepVal env name jar side with
      | some r => simp [searchItem, h1, h2, h3]
      | none => simp [searchItem, h1, h2, h3]
  | none =>
    cases h3 : searchStepVal env name jar side with
    | some r => simp [searchItem, h1, h3]
    | none => simp [searchItem, h1, h3]

theorem searchItem_searchQ (env : FetchEnv) (name jar side : String) (mods : Store) :
    ∀ x ∈ (searchItem env name jar side mods).2.2, x = pyKey name := by
  cases h1 : lookupKV MODRINTH_SLUG_MAP (pyKey name) with
  | some slug =>
    cases h2 : env.projectOracle slug with
    | some p => simp [searchItem, h1, h2]
    | none =>
      cases h3 : searchStepVal env name jar side with
      | some r => simp [searchItem, h1, h2, h3]
      | none => simp [searchItem, h1, h2, h3]
  | none =>
    cases h3 : searchStepVal env name jar side with
    | some r => simp [searchItem, h1, h3]
    | none => simp [searchItem, h1, h3]

theorem searchFold_lookup (env : FetchEnv) (l : List (String × String × String)) :
    ∀ (mods : Store) (k : String),
      lookupKV (searchFold env l mods).mods k =
        match lookupKV mods k with
        | some v => some v
        | none => firstResolveVal env l k := by
  induction l with
  | nil =>
    intro mods k
    cases h : lookupKV mods k <;> simp [searchFold, firstResolveVal, h]
  | cons it rest ih =>
    obtain ⟨name, jar, side⟩ := it
    intro mods k
    simp only [searchFold]
    by_cases hs : (lookupKV mods (pyKey name)).isSome
    · rw [if_pos hs, ih]
      cases hl : lookupKV mods k with
      | some v => rfl
      | none =>
        have hne : pyKey name ≠ k := by
          intro he
          rw [he, hl] at hs
          simp at hs
        simp only [firstResolveVal, if_neg hne]
    · rw [if_neg hs]
      simp only [ih, searchItem_mods]
      rw [Option.not_isSome_iff_eq_none] at hs
      cases hr : itemResult env name jar side with
      | some r =>
        by_cases hk : pyKey name = k
        · subst hk
          rw [lookupKV_insertKV_self, hs]
          simp [firstResolveVal, hr]
        · rw [lookupKV_insertKV_ne mods (pyKey name) k r (fun h => hk h.symm)]
          cases hl : lookupKV mods k with
          | some v => rfl
          | none => simp only [firstResolveVal, if_neg hk]
      | none =>
        by_cases hk : pyKey name = k
        · subst hk
          rw [hs]
          simp [firstResolveVal, hr]
        · cases hl : lookupKV mods k with
          | some v => rfl
          | none => simp only [firstResolveVal, if_neg hk]

theorem searchFold_noQueries (env : FetchEnv) (l : List (String × String × String)) :
    ∀ (mods : Store) (k : String), (lookupKV mods k).isSome →
      k ∉ (searchFold env l mods).slugQ ∧ k ∉ (searchFold env l mods).searchQ := by
  induction l with
  | nil =>
    intro mods k _
    simp [searchFold]
  | cons it rest ih =>
    obtain ⟨name, jar, side⟩ := it
    intro mods k hk
    simp only [searchFold]
    by_cases hs : (lookupKV mods (pyKey name)).isSome
    · rw [if_pos hs]
      exact ih mods k hk
    · rw [if_neg hs]
      rw [Option.not_isSome_iff_eq_none] at hs
      have hne : pyKey name ≠ k := by
        intro he
        rw [he] at hs
        rw [hs] at hk
        simp at hk
      have hk1 : (lookupKV (searchItem env name jar side mods).1 k).isSome := by
        rw [searchItem_mods]
        cases hr : itemResult env name jar side with
        | some r =>
          rw [lookupKV_insertKV_ne mods (pyKey name) k r (Ne.symm hne)]
          exact hk
        | none => exact hk
      obtain ⟨ihs, ihq⟩ := ih (searchItem env name jar side mods).1 k hk1
      constructor
      · intro hmem
        rcases List.mem_append.mp hmem with h1 | h1
        · exact hne (searchItem_slugQ env name jar side mods k h1).symm
        · exact ihs h1
      · intro hmem
        rcases List.mem_append.mp hmem with h1 | h1
        · exact hne (searchItem_searchQ env name jar side mods k h1).symm
        · exact ihq h1

theorem ollamaFold_lookup (env : FetchEnv) (l : List (String × String × String)) :
    ∀ (mods : Store) (k : String),
      lookupKV (ollamaFold env l mods).mods k =
        match lastWriteVal env l k with
        | some v => some v
        | none => lookupKV mods k := by
  induction l with
  | nil => intro mods k; rfl
  | cons it rest ih =>
    obtain ⟨name, jar, side⟩ := it
    intro mods k
    simp only [ollamaFold, ih]
    cases hrest : lastWriteVal env rest k with
    | some v => simp only [lastWriteVal, hrest]
    | none =>
      simp only [lastWriteVal, hrest]
      by_cases hk : pyKey name = k
      · rw [if_pos hk, hk, lookupKV_insertKV_self]
      · rw [if_neg hk, lookupKV_insertKV_ne mods (pyKey name) k _ (Ne.symm hk)]

theorem ollamaFold_logs (env : FetchEnv) (l : List (String × String × String)) :
    ∀ mods : Store, (ollamaFold env l mods).ollamaQ = l.map (fun it => pyKey it.1) := by
  induction l with
  | nil => intro mods; rfl
  | cons it rest ih =>
    obtain ⟨name, jar, side⟩ := it
    intro mods
    simp only [ollamaFold, ih, List.map_cons]

theorem missingOfList_mem (mods : Store) (l : List ModScan) (it : String × String × String)
    (h : it ∈ missingOfList mods l) :
    lookupKV mods (pyKey it.1) = none ∧ ∃ m ∈ l, it = (m.name, m.jar, m.side) := by
  induction l with
  | nil => cases h
  | cons m rest ih =>
    simp only [missingOfList] at h
    by_cases hl : (lookupKV mods (pyKey m.name)).isNone
    · rw [if_pos hl] at h
      rcases List.mem_cons.mp h with h1 | h1
      · subst h1
        rw [Option.isNone_iff_eq_none] at hl
        exact ⟨hl, m, List.mem_cons_self _ _, rfl⟩
      · obtain ⟨hn, m2, hm2, he⟩ := ih h1
        exact ⟨hn, m2, List.mem_cons_of_mem _ hm2, he⟩
    · rw [if_neg hl] at h
      obtain ⟨hn, m2, hm2, he⟩ := ih h
      exact ⟨hn, m2, List.mem_cons_of_mem _ hm2, he⟩

theorem missingOfList_mem_of (mods : Store) (l : List ModScan) (m : ModScan)
    (hm : m ∈ l) (hn : lookupKV mods (pyKey m.name) = none) :
    (m.name, m.jar, m.side) ∈ missingOfList mods l := by
  induction l with
  | nil => cases hm
  | cons m0 rest ih =>
    simp only [missingOfList]
    rcases List.mem_cons.mp hm with h1 | h1
    · subst h1
      rw [if_pos (by rw [hn]; rfl)]
      exact List.mem_cons_self _ _
    · by_cases hl : (lookupKV mods (pyKey m0.name)).isNone
      · rw [if_pos hl]
        exact List.mem_cons_of_mem _ (ih h1)
      · rw [if_neg hl]
        exact ih h1

theorem missingOfList_eq_nil (mods : Store) (l : List ModScan)
    (h : ∀ m ∈ l, (lookupKV mods (pyKey m.name)).isSome) :
    missingOfList mods l = [] := by
  induction l with
  | nil => rfl
  | cons m rest ih =>
    simp only [missingOfList]
    have hm := h m (List.mem_cons_self _ _)
    rw [if_neg (by simp [Option.isNone_iff_eq_none]; rw [← Option.not_isSome_iff_eq_none]; simp [hm])]
    exact ih (fun m2 hm2 => h m2 (List.mem_cons_of_mem _ hm2))

theorem firstResolveVal_missing (env : FetchEnv) (l : List ModScan) :
    ∀ (mods : Store) (k : String), lookupKV mods k = none →
      firstResolveVal env (missingOfList mods l) k = firstResolveAll env l k := by
  induction l with
  | nil => intro mods k _; rfl
  | cons m rest ih =>
    intro mods k hk
    simp only [missingOfList, firstResolveAll]
    by_cases hl : (lookupKV mods (pyKey m.name)).isNone
    · rw [if_pos hl]
      simp only [firstResolveVal]
      by_cases hkey : pyKey m.name = k
      · rw [if_pos hkey, if_pos hkey]
        cases itemResult env m.name m.jar m.side with
        | some r => rfl
        | none => exact ih mods k hk
      · rw [if_neg hkey, if_neg hkey]
        exact ih mods k hk
    · rw [if_neg hl]
      have hkey : pyKey m.name ≠ k := by
        intro he
        rw [he, hk] at hl
        simp at hl
      rw [if_neg hkey]
      exact ih mods k hk

theorem lastWriteVal_none_of (env : FetchEnv) (l : List (String × String × String)) (k : String)
    (h : ∀ it ∈ l, pyKey it.1 ≠ k) : lastWriteVal env l k = none := by
  induction l with
  | nil => rfl
  | cons it rest ih =>
    obtain ⟨name, jar, side⟩ := it
    simp only [lastWriteVal]
    rw [ih (fun it2 h2 => h it2 (List.mem_cons_of_mem _ h2))]
    rw [if_neg (h (name, jar, side) (List.mem_cons_self _ _))]

theorem lastWriteVal_isSome_of_mem (env : FetchEnv) (l : List (String × String × String))
    (k : String) (it : String × String × String) (hm : it ∈ l) (hk : pyKey it.1 = k) :
    (lastWriteVal env l k).isSome := by
  induction l with
  | nil => cases hm
  | cons it0 rest ih =>
    obtain ⟨name, jar, side⟩ := it0
    simp only [lastWriteVal]
    cases hrest : lastWriteVal env rest k with
    | some v => simp
    | none =>
      rcases List.mem_cons.mp hm with h1 | h1
      · subst h1
        rw [if_pos hk]
        simp
      · have := ih h1
        rw [hrest] at this
        simp at this

theorem lastWriteVal_some_key (env : FetchEnv) (l : List (String × String × String))
    (k : String) (h : (lastWriteVal env l k).isSome) : ∃ it ∈ l, pyKey it.1 = k := by
  induction l with
  | nil => simp [lastWriteVal] at h
  | cons it0 rest ih =>
    obtain ⟨name, jar, side⟩ := it0
    simp only [lastWriteVal] at h
    cases hrest : lastWriteVal env rest k with
    | some v =>
      have hr : (lastWriteVal env rest k).isSome := by simp [hrest]
      obtain ⟨it, hit, hk⟩ := ih hr
      exact ⟨it, List.mem_cons_of_mem _ hit, hk⟩
    | none =>
      rw [hrest] at h
      by_cases hk : pyKey name = k
      · exact ⟨(name, jar, side), List.mem_cons_self _ _, hk⟩
      · rw [if_neg hk] at h
        simp at h

/-- The store after manual overrides and the batch tier. -/
def fetchS2 (env : FetchEnv) (S : Store) : Store := applyBatch env (applyManual S)

/-- The 3b stage over the `missing` snapshot. -/
def fetchSo (env : FetchEnv) (S : Store) : SearchOut :=
  searchFold env (missingOf env (fetchS2 env S)) (fetchS2 env S)

theorem runMods_mods_eq (env : FetchEnv) (S : Store) :
    (runMods env S).mods =
      (if env.hasOllama then
        ollamaFold env (missingOf env (fetchSo env S).mods) (fetchSo env S).mods
      else ⟨(fetchSo env S).mods, []⟩).mods := rfl

theorem runMods_ollamaQ_eq (env : FetchEnv) (S : Store) :
    (runMods env S).ollamaQ =
      (if env.hasOllama then
        ollamaFold env (missingOf env (fetchSo env S).mods) (fetchSo env S).mods
      else ⟨(fetchSo env S).mods, []⟩).ollamaQ := rfl

theorem runMods_slugQ_eq (env : FetchEnv) (S : Store) :
    (runMods env S).slugQ = (fetchSo env S).slugQ := rfl

theorem runMods_searchQ_eq (env : FetchEnv) (S : Store) :
    (runMods env S).searchQ = (fetchSo env S).searchQ := rfl

theorem fetchS2_isSome_of (env : FetchEnv) (S : Store) (k : String)
    (h : (lookupKV S k).isSome) : (lookupKV (fetchS2 env S) k).isSome := by
  obtain ⟨v, hv⟩ := Option.isSome_iff_exists.mp h
  have h1 : lookupKV (applyManual S) k = some v := by rw [applyManual_lookup, hv]
  unfold fetchS2
  rw [applyBatch_lookup]
  cases batchClaimVal env k <;> simp [h1]

theorem fetchSo_isSome_of (env : FetchEnv) (S : Store) (k : String)
    (h : (lookupKV S k).isSome) : (lookupKV (fetchSo env S).mods k).isSome := by
  obtain ⟨v2, hv2⟩ := Option.isSome_iff_exists.mp (fetchS2_isSome_of env S k h)
  unfold fetchSo
  rw [searchFold_lookup, hv2]
  simp

theorem runMods_final_of_searchSome (env : FetchEnv) (S : Store) (k : String) (v : ModRecord)
    (h3 : lookupKV (fetchSo env S).mods k = some v) :
    lookupKV (runMods env S).mods k = some v := by
  rw [runMods_mods_eq]
  cases hoc : env.hasOllama
  · simp only [hoc, Bool.false_eq_true, if_false]
    exact h3
  · simp only [hoc, if_true]
    rw [ollamaFold_lookup]
    cases hw : lastWriteVal env (missingOf env (fetchSo env S).mods) k with
    | some w2 =>
      exfalso
      obtain ⟨it, hit, hk⟩ := lastWriteVal_some_key env
        (missingOf env (fetchSo env S).mods) k (by rw [hw]; rfl)
      unfold missingOf at hit
      obtain ⟨hn, _⟩ := missingOfList_mem _ _ it hit
      rw [hk] at hn
      rw [hn] at h3
      cases h3
    | none => exact h3

theorem runMods_isSome_of (env : FetchEnv) (S : Store) (k : String)
    (h : (lookupKV S k).isSome) : (lookupKV (runMods env S).mods k).isSome := by
  obtain ⟨v, hv⟩ := Option.isSome_iff_exists.mp (fetchSo_isSome_of env S k h)
  rw [runMods_final_of_searchSome env S k v hv]
  rfl

theorem runMods_lookup_batchClaim (env : FetchEnv) (S : Store) (k : String) (w : ModRecord)
    (hb : batchClaimVal env k = some w) : lookupKV (runMods env S).mods k = some w := by
  have h2 : lookupKV (fetchS2 env S) k = some w := by
    unfold fetchS2
    rw [applyBatch_lookup, hb]
  have h3 : lookupKV (fetchSo env S).mods k = some w := by
    unfold fetchSo
    rw [searchFold_lookup, h2]
  exact runMods_final_of_searchSome env S k w h3

theorem runMods_lookup_preserved (env : FetchEnv) (S : Store) (k : String) (v : ModRecord)
    (hv : lookupKV S k = some v) (hb : batchClaimVal env k = none) :
    lookupKV (runMods env S).mods k = some v := by
  have h1 : lookupKV (applyManual S) k = some v := by rw [applyManual_lookup, hv]
  have h2 : lookupKV (fetchS2 env S) k = some v := by
    unfold fetchS2
    rw [applyBatch_lookup, hb, h1]
  have h3 : lookupKV (fetchSo env S).mods k = some v := by
    unfold fetchSo
    rw [searchFold_lookup, h2]
  exact runMods_final_of_searchSome env S k v h3

theorem runMods_abridged_isSome (env : FetchEnv) (S : Store) :
    (lookupKV (runMods env S).mods "abridged").isSome := by
  have h1 : (lookupKV (applyManual S) "abridged").isSome := by
    rw [applyManual_lookup]
    cases lookupKV S "abridged" <;> simp
  obtain ⟨v, hv⟩ := Option.isSome_iff_exists.mp h1
  have h2 : (lookupKV (fetchS2 env S) "abridged").isSome := by
    unfold fetchS2
    rw [applyBatch_lookup]
    cases batchClaimVal env "abridged" <;> simp [hv]
  obtain ⟨v2, hv2⟩ := Option.isSome_iff_exists.mp h2
  have h3 : lookupKV (fetchSo env S).mods "abridged" = some v2 := by
    unfold fetchSo
    rw [searchFold_lookup, hv2]
  rw [runMods_final_of_searchSome env S "abridged" v2 h3]
  rfl

theorem runMods_allkeys (env : FetchEnv) (S : Store) (m : ModScan)
    (hm : m ∈ env.clientMods ++ env.serverMods) (ho : env.hasOllama = true) :
    (lookupKV (runMods env S).mods (pyKey m.name)).isSome := by
  cases h3 : lookupKV (fetchSo env S).mods (pyKey m.name) with
  | some v =>
    rw [runMods_final_of_searchSome env S (pyKey m.name) v h3]
    rfl
  | none =>
    have hmiss : (m.name, m.jar, m.side) ∈ missingOf env (fetchSo env S).mods := by
      simp only [missingOf]
      exact missingOfList_mem_of _ _ m hm h3
    rw [runMods_mods_eq]
    simp only [ho, if_true]
    rw [ollamaFold_lookup]
    have hws := lastWriteVal_isSome_of_mem env (missingOf env (fetchSo env S).mods)
      (pyKey m.name) (m.name, m.jar, m.side) hmiss rfl
    obtain ⟨w, hw⟩ := Option.isSome_iff_exists.mp hws
    rw [hw]
    rfl

/-- Claim C10: a key already present in the loaded store — the
`unknown`-source placeholder included — is never queried again by the
slug-lookup, name-search or generative tiers; the batch tier alone
re-queries, and it forces its freshly fetched record onto its keys
regardless of what record (of whatever provenance) the store held. -/
theorem C10_persisted_store_tiers :
    (∀ (env : FetchEnv) (S : Store) (k : String), (lookupKV S k).isSome →
      k ∉ (runMods env S).slugQ ∧ k ∉ (runMods env S).searchQ ∧
        k ∉ (runMods env S).ollamaQ) ∧
    (∀ (env : FetchEnv) (S : Store) (k : String) (w : ModRecord),
      batchClaimVal env k = some w → lookupKV (runMods env S).mods k = some w) := by
  constructor
  · intro env S k h
    have h2 := fetchS2_isSome_of env S k h
    have hsq := searchFold_noQueries env (missingOf env (fetchS2 env S)) (fetchS2 env S) k h2
    refine ⟨by rw [runMods_slugQ_eq]; exact hsq.1, by rw [runMods_searchQ_eq]; exact hsq.2, ?_⟩
    rw [runMods_ollamaQ_eq]
    cases hoc : env.hasOllama
    · simp
    · simp only [if_true]
      rw [ollamaFold_logs]
      intro hmem
      obtain ⟨it, hit, hkey⟩ := List.mem_map.mp hmem
      unfold missingOf at hit
      obtain ⟨hn, _⟩ := missingOfList_mem _ _ it hit
      rw [hkey] at hn
      have h3 := fetchSo_isSome_of env S k h
      rw [hn] at h3
      simp at h3
  · intro env S k w hb
    exact runMods_lookup_batchClaim env S k w hb

/-- Claim C7: resolution is idempotent.  A generative-tier result already
in the generator's cache is returned unchanged with no new query; and in
the fetcher, running the pipeline again on its own output leaves every
record identical and issues no generative queries at all. -/
theorem C7_resolution_idempotent :
    (∀ (cacheMods : List (String × AIInfo)) (avail : Bool) (resp : AiResp)
       (name jar hint : String) (v : AIInfo),
      lookupKV cacheMods (pyStrip (pyLower name)) = some v →
      aiGetModInfo cacheMods avail resp name jar hint = ⟨some v, false, cacheMods⟩) ∧
    (∀ (env : FetchEnv) (S : Store) (k : String),
      lookupKV (runMods env (runMods env S).mods).mods k =
        lookupKV (runMods env S).mods k) ∧
    (∀ (env : FetchEnv) (S : Store),
      (runMods env (runMods env S).mods).ollamaQ = []) := by
  refine ⟨?_, ?_, ?_⟩
  · intro c avail resp name jar hint v h
    simp [aiGetModInfo, h]
  · intro env S k
    by_cases hb : (batchClaimVal env k).isSome
    · obtain ⟨w, hw⟩ := Option.isSome_iff_exists.mp hb
      rw [runMods_lookup_batchClaim env _ k w hw, runMods_lookup_batchClaim env S k w hw]
    · rw [Option.not_isSome_iff_eq_none] at hb
      cases hS1k : lookupKV (runMods env S).mods k with
      | some v => rw [runMods_lookup_preserved env _ k v hS1k hb]
      | none =>
        have f1 : k ≠ "abridged" := by
          intro he
          have := runMods_abridged_isSome env S
          rw [← he, hS1k] at this
          simp at this
        have f2 : firstResolveAll env (env.clientMods ++ env.serverMods) k = none := by
          cases hfr : firstResolveAll env (env.clientMods ++ env.serverMods) k with
          | none => rfl
          | some r =>
            exfalso
            have h2n : lookupKV (fetchS2 env S) k = none := by
              cases h2c : lookupKV (fetchS2 env S) k with
              | none => rfl
              | some v2 =>
                have h3 : lookupKV (fetchSo env S).mods k = some v2 := by
                  unfold fetchSo
                  rw [searchFold_lookup, h2c]
                rw [runMods_final_of_searchSome env S k v2 h3] at hS1k
                cases hS1k
            have h3 : lookupKV (fetchSo env S).mods k = some r := by
              unfold fetchSo
              rw [searchFold_lookup, h2n]
              unfold missingOf
              rw [firstResolveVal_missing env _ (fetchS2 env S) k h2n, hfr]
            rw [runMods_final_of_searchSome env S k r h3] at hS1k
            cases hS1k
        have f3 : env.hasOllama = true →
            ∀ m ∈ env.clientMods ++ env.serverMods, pyKey m.name ≠ k := by
          intro hoc m hm he
          have := runMods_allkeys env S m hm hoc
          rw [he, hS1k] at this
          simp at this
        have g1 : lookupKV (applyManual (runMods env S).mods) k = none := by
          rw [applyManual_lookup, hS1k]
          simp [f1]
        have g2 : lookupKV (fetchS2 env (runMods env S).mods) k = none := by
          unfold fetchS2
          rw [applyBatch_lookup, hb, g1]
        have g3 : lookupKV (fetchSo env (runMods env S).mods).mods k = none := by
          unfold fetchSo
          rw [searchFold_lookup, g2]
          unfold missingOf
          rw [firstResolveVal_missing env _ (fetchS2 env (runMods env S).mods) k g2, f2]
        have hL : lookupKV (runMods env (runMods env S).mods).mods k = none := by
          rw [runMods_mods_eq env ((runMods env S).mods)]
          cases hoc : env.hasOllama
          · simp only [hoc, Bool.false_eq_true, if_false]
            exact g3
          · simp only [hoc, if_true]
            rw [ollamaFold_lookup]
            have hlw : lastWriteVal env
                (missingOf env (fetchSo env (runMods env S).mods).mods) k = none := by
              apply lastWriteVal_none_of
              intro it hit he
              unfold missingOf at hit
              obtain ⟨_, m, hm, hitm⟩ := missingOfList_mem _ _ it hit
              have hmk : pyKey m.name = k := by
                rw [hitm] at he
                exact he
              exact f3 hoc m hm hmk
            rw [hlw]
            exact g3
        exact hL
  · intro env S
    rw [runMods_ollamaQ_eq]
    cases hoc : env.hasOllama
    · simp
    · simp only [if_true]
      rw [ollamaFold_logs]
      have hnil : missingOf env (fetchSo env (runMods env S).mods).mods = [] := by
        unfold missingOf
        apply missingOfList_eq_nil
        intro m hm
        have h1 := runMods_allkeys env S m hm hoc
        exact fetchSo_isSome_of env (runMods env S).mods (pyKey m.name) h1
      rw [hnil]
      rfl

/-! ## Concrete environments for the witnesses and counterexamples -/

/-- A registry project marked client-unsupported / server-required. -/
def projServerOnly : Project :=
  ⟨"abc1", none, some "Test Mod", some "A server-side mod", some "unsupported",
   some "required", none, none, none, none, none, none⟩

/-- A run whose client scan found one jar with a registry id, with the
generative service down. -/
def envC1 : FetchEnv :=
  ⟨[⟨"TestMod", "testmod-1.0.jar", "abc1", "client"⟩], [],
   fun _ => some [projServerOnly], fun _ => none, fun _ => none,
   fun _ _ _ => none, false⟩

/-- A run with one batch-resolvable client mod and the generative tier up. -/
def envW : FetchEnv :=
  ⟨[⟨"TestMod", "testmod-1.0.jar", "abc1", "client"⟩], [],
   fun _ => some [projServerOnly], fun _ => none, fun _ => none,
   fun _ _ _ => some ⟨some "an ollama description", some "client", some "required"⟩, true⟩

/-- A store already holding an unresolved placeholder under the key `foo`. -/
def storeW : Store := [("foo", placeholderRecord "Foo" "both")]

/-- The record the batch tier forces for `testmod` in `envW`. -/
def wRecW : ModRecord :=
  withScan (extractModrinthInfo projServerOnly) "testmod-1.0.jar" "client"

/-- An environment with no mods and no generative service. -/
def envC6 : FetchEnv :=
  ⟨[], [], fun _ => none, fun _ => none, fun _ => none, fun _ _ _ => none, false⟩

/-- A cached generative result for the generator-side witnesses. -/
def aiInfoW : AIInfo := ⟨"a mod", some "client", some "required", none, none, none, none⟩

theorem clientSideCases (s : String) :
    (if s = "server" then "both" else if s = "client" ∨ s = "both" then s else "client") =
        "client" ∨
      (if s = "server" then "both" else if s = "client" ∨ s = "both" then s else "client") =
        "both" := by
  split_ifs with h1 h2
  · right
    rfl
  · rcases h2 with h2 | h2
    · left
      exact h2
    · right
      exact h2
  · left
    rfl

theorem serverSideCases (s : String) :
    (if s = "client" then "both" else if s = "server" ∨ s = "both" then s else "server") =
        "server" ∨
      (if s = "client" then "both" else if s = "server" ∨ s = "both" then s else "server") =
        "both" := by
  split_ifs with h1 h2
  · right
    rfl
  · rcases h2 with h2 | h2
    · left
      exact h2
    · right
      exact h2
  · left
    rfl

/-- Claim C1 (counterexample): in the fetcher, a mod scanned from the
client installation whose registry project is marked client-unsupported /
server-required is stored with final side exactly `server` — the scan's
side reaches the record only as the `_side_hint` field, uncoerced. -/
theorem C1_counterexample :
    (lookupKV (runMods envC1 []).mods "testmod").map (fun r => (r.side, r.sideHintField)) =
      some ("server", "client") := by decide

/-- Claim C1 (amended): in `generate_modlist.py` the coercion does hold —
a client-collected entry's final side is always `client` or `both` and a
server-collected entry's always `server` or `both`, whatever `info` any
tier supplied.  In `fetch_mod_data.py` no such coercion exists: the
batch/search tiers store the registry's side verbatim and keep the
installation side only in the `_side_hint` field. -/
theorem C1_side_coercion_amended :
    (∀ (name version jar : String) (info : Option AIInfo),
      (clientModRecord name version jar info).side = "client" ∨
        (clientModRecord name version jar info).side = "both") ∧
    (∀ (name version jar : String) (info : Option AIInfo),
      (serverModRecord name version jar info).side = "server" ∨
        (serverModRecord name version jar info).side = "both") ∧
    (∀ (p : Project) (jar side : String),
      (withScan (extractModrinthInfo p) jar side).side = (extractModrinthInfo p).side ∧
        (withScan (extractModrinthInfo p) jar side).sideHintField = side) := by
  refine ⟨?_, ?_, ?_⟩
  · intro name version jar info
    exact clientSideCases (match info with | some i => i.side.getD "client" | none => "client")
  · intro name version jar info
    exact serverSideCases (match info with | some i => i.side.getD "server" | none => "server")
  · intro p jar side
    exact ⟨rfl, rfl⟩

/-- Claim C6 (counterexample): with a reachable service listing only the
unrelated model `llama3:8b` while `qwen2.5:14b` is configured, the
generator's availability check succeeds anyway — it only tests that the
model list is non-empty — although the configured model's base name
matches no listed model (the fetcher's check, which does test this,
fails on the same data). -/
theorem C6_counterexample :
    genOllamaAvailable ["llama3:8b"] = true ∧
    modelBaseName "qwen2.5:14b" = "qwen2.5" ∧
    fetchOllamaAvailable ["llama3:8b"] "qwen2.5:14b" = false := by decide

/-- Claim C6 (amended): the generative tier is attempted only when the
availability flag is up, in both entry points — `ai_get_mod_info` never
queries when unavailable, and the fetcher's step 4 issues no generative
query when its flag is down.  But only the fetcher's check requires the
configured model: it succeeds iff the model's base name (text before the
first `:`) is a substring of some listed model; the generator's succeeds
iff the model list is non-empty, whatever models it holds. -/
theorem C6_availability_amended :
    (∀ (models : List String) (model : String),
      fetchOllamaAvailable models model = true ↔
        ∃ m ∈ models, pyInStr (modelBaseName model) m = true) ∧
    (∀ models : List String, genOllamaAvailable models = true ↔ models ≠ []) ∧
    (∀ (cacheMods : List (String × AIInfo)) (avail : Bool) (resp : AiResp)
        (name jar hint : String),
      (aiGetModInfo cacheMods avail resp name jar hint).queried = true → avail = true) ∧
    (∀ (env : FetchEnv) (S : Store), env.hasOllama = false →
      (runMods env S).ollamaQ = []) := by
  refine ⟨?_, ?_, ?_, ?_⟩
  · intro models model
    simp [fetchOllamaAvailable, List.any_eq_true]
  · intro models
    simp [genOllamaAvailable, List.length_pos]
  · intro cacheMods avail resp name jar hint h
    simp only [aiGetModInfo] at h
    cases hc : lookupKV cacheMods (pyStrip (pyLower name)) with
    | some v =>
      rw [hc] at h
      simp at h
    | none =>
      rw [hc] at h
      cases avail
      · simp at h
      · rfl
  · intro env S h
    rw [runMods_ollamaQ_eq]
    simp [h]

/-- Witness for the amended C6 statement at concrete inputs. -/
theorem C6_availability_amended_witness :
    fetchOllamaAvailable ["llama3:8b"] "llama3:latest" = true ∧
    genOllamaAvailable ["llama3:8b"] = true ∧
    true = true ∧
    (runMods envC6 []).ollamaQ = [] := by
  refine ⟨?_, ?_, ?_, C6_availability_amended.2.2.2 envC6 [] rfl⟩
  · exact (C6_availability_amended.1 ["llama3:8b"] "llama3:latest").mpr
      ⟨"llama3:8b", by decide, by decide⟩
  · exact (C6_availability_amended.2.1 ["llama3:8b"]).mpr (by decide)
  · exact C6_availability_amended.2.2.1 [] true .fail "X" "x.jar" "both" (by decide)

/-- Witness for C10 at a concrete run: the pre-seeded placeholder key
`foo` is queried by no tier, and the batch tier forces its fresh record
onto `testmod`. -/
theorem C10_persisted_store_tiers_witness :
    "foo" ∉ (runMods envW storeW).slugQ ∧ "foo" ∉ (runMods envW storeW).searchQ ∧
      "foo" ∉ (runMods envW storeW).ollamaQ ∧
      lookupKV (runMods envW storeW).mods "testmod" = some wRecW := by
  obtain ⟨h1, h2, h3⟩ := C10_persisted_store_tiers.1 envW storeW "foo" (by decide)
  exact ⟨h1, h2, h3, C10_persisted_store_tiers.2 envW storeW "testmod" wRecW (by decide)⟩

/-- Witness for C7 at concrete inputs: a cached generative result is
returned untouched without a query, and a second fetcher run over the
first run's store changes no lookup and issues no generative query. -/
theorem C7_resolution_idempotent_witness :
    aiGetModInfo [("sodium", aiInfoW)] true .fail "Sodium" "sodium.jar" "client" =
      ⟨some aiInfoW, false, [("sodium", aiInfoW)]⟩ ∧
    lookupKV (runMods envW (runMods envW storeW).mods).mods "testmod" =
      lookupKV (runMods envW storeW).mods "testmod" ∧
    (runMods envW (runMods envW storeW).mods).ollamaQ = [] :=
  ⟨C7_resolution_idempotent.1 [("sodium", aiInfoW)] true .fail "Sodium" "sodium.jar" "client"
      aiInfoW (by decide),
   C7_resolution_idempotent.2.1 envW storeW "testmod",
   C7_resolution_idempotent.2.2 envW storeW⟩
